import Mathlib

/-!
# Modbus TCP client of the drone detection system (`src/modbus_client.cpp`)

A shallow embedding of the client: the protocol functions
`modbus_read_holding_registers` and `modbus_write_single_register`, the
session functions `modbus_connect` and `modbus_disconnect`, the telemetry
functions `parse_drone_data` and `print_drone_data`, and the polling loop of
`main`. The two globals (`sockfd`, `transaction_id`) are passed explicitly,
the socket calls `send` / `recv` are answered by a `Transport` value, the
calls `socket` / `connect` by a `ConnectEnv` value, and what the program does
(calls, `close`, `sleep`, lines printed) is kept as a list of `Event` values.

Conventions.
* C `unsigned short` and `unsigned char` values are natural numbers; every
  store into such a variable is written with an explicit `% 65536` / `% 256`.
* What a call prints is kept as a list of `Diag` values, one constructor per
  `printf` of the protocol functions.
* `response` is a 256 byte array on the stack: cells that `recv` did not
  write keep the (arbitrary) previous contents `stale`, and an access at an
  index of 256 or more ends the call with `Status.outOfBounds`.
-/

namespace ModbusClient

/-! ## Constants (lines 22-57) -/

/-- `#define MODBUS_MAX_READ_REGISTERS 125` (the source never uses it). -/
abbrev MODBUS_MAX_READ_REGISTERS : Nat := 125

/-- `#define MODBUS_FC_READ_HOLDING_REGISTERS 0x03` -/
abbrev MODBUS_FC_READ_HOLDING_REGISTERS : Nat := 0x03

/-- `#define MODBUS_FC_WRITE_SINGLE_REGISTER 0x06` -/
abbrev MODBUS_FC_WRITE_SINGLE_REGISTER : Nat := 0x06

/-- `#define MODBUS_SUCCESS 0` -/
abbrev MODBUS_SUCCESS : Int := 0

/-- `#define MODBUS_ERROR_CONNECTION -1` -/
abbrev MODBUS_ERROR_CONNECTION : Int := -1

/-- `#define MODBUS_ERROR_INVALID_RESPONSE -2` -/
abbrev MODBUS_ERROR_INVALID_RESPONSE : Int := -2

/-- `#define MODBUS_ERROR_TIMEOUT -3` (the source never returns it). -/
abbrev MODBUS_ERROR_TIMEOUT : Int := -3

/-- Size of `unsigned char response[256]` in `modbus_read_holding_registers`. -/
abbrev READ_RESPONSE_SIZE : Nat := 256

/-- Size of `unsigned char response[12]` in `modbus_write_single_register`. -/
abbrev WRITE_RESPONSE_SIZE : Nat := 12

/-! ## State and environment -/

/-- The two global variables: `int sockfd = -1;` and
`unsigned short transaction_id = 1;` (lines 63 and 65). -/
structure Globals where
  sockfd : Int
  transaction_id : Nat
deriving DecidableEq, Repr

/-- Globals at process start. -/
def Globals.initial : Globals := { sockfd := -1, transaction_id := 1 }

/-- What the socket does during one call.
* `sendResult` is the value `send(sockfd, request, 12, 0)` returns.
* `incoming` is what `recv` finds: `none` when it fails or times out (it then
  returns -1), `some bytes` for the bytes the peer delivered.
* `stale i` is what cell `i` of the response array held before `recv`. -/
structure Transport where
  sendResult : Int
  incoming : Option (List Nat)
  stale : Nat → Nat

/-- Return value of `recv(sockfd, response, size, 0)`: -1 on failure, else the
number of bytes stored, never more than `size`. -/
def recvCount (incoming : Option (List Nat)) (size : Nat) : Int :=
  match incoming with
  | none => -1
  | some bytes => ((bytes.take size).length : Int)

/-- Cell `i` of the response array after `recv`: a received byte where one was
stored, the previous contents elsewhere. Cells are `unsigned char`. -/
def recvBuffer (incoming : Option (List Nat)) (size : Nat) (stale : Nat → Nat) (i : Nat) : Nat :=
  match incoming with
  | none => stale i % 256
  | some bytes => ((bytes.take size).getD i (stale i)) % 256

/-- The lines the protocol functions print. -/
inductive Diag
  /-- Line 295, `Veri gonderme hatasi`: `send` did not take the 12 bytes. -/
  | sendFailed
  /-- Line 307, `Veri alma hatasi`: `recv` returned a negative value. -/
  | recvFailed
  /-- Line 314, `Gecersiz yanit uzunlugu: %d`: fewer than 9 bytes. -/
  | invalidLength (received : Int)
  /-- Line 321, `Transaction ID uyumsuzlugu`. -/
  | transactionMismatch
  /-- Line 328, `Modbus hatasi: %02X` with `response[8]`. -/
  | modbusException (code : Nat)
  /-- Line 336, `Gecersiz byte sayisi: %d` with `byte_count`. -/
  | invalidByteCount (byte_count : Nat)
deriving DecidableEq, Repr

/-- How a call ends: it returns an `int`, or it accesses `response[index]`
outside the array, after which C defines no behaviour. -/
inductive Status
  | returned (code : Int)
  | outOfBounds (index : Nat)
deriving DecidableEq, Repr

/-- Everything observable of one call.
* `globals`: the globals after the call.
* `request`: the 12 bytes handed to `send`, when `send` was called.
* `log`: the lines printed.
* `data`: the values stored to `data[0]`, `data[1]`, ... in this order. -/
structure Outcome where
  status : Status
  globals : Globals
  request : Option (List Nat)
  log : List Diag
  data : List Nat
deriving DecidableEq, Repr

/-! ## `modbus_read_holding_registers` (lines 258-347) -/

/-- The loop of lines 342-344, entered at index `i` with `remaining`
iterations to go and `stored` the values already stored to `data`:
`data[i] = (response[9 + i * 2] << 8) | response[10 + i * 2];`. -/
def decodeRegisters (response : Nat → Nat) : Nat → Nat → List Nat → Status × List Nat
  | 0, _, stored => (Status.returned MODBUS_SUCCESS, stored)
  | remaining + 1, i, stored =>
    if 10 + i * 2 < READ_RESPONSE_SIZE then
      decodeRegisters response remaining (i + 1)
        (stored ++ [((response (9 + i * 2) <<< 8) ||| response (10 + i * 2)) % 65536])
    else
      (Status.outOfBounds (10 + i * 2), stored)

/-- Line 319: `unsigned short response_transaction_id = (response[0] << 8) | response[1];` -/
def response_transaction_id (response : Nat → Nat) : Nat :=
  ((response 0 <<< 8) ||| response 1) % 65536

/-- Bytes of a read request, lines 274-287. -/
def readRequest (current_transaction_id start_addr num_registers : Nat) : List Nat :=
  [ (current_transaction_id >>> 8) &&& 0xFF,
    current_transaction_id &&& 0xFF,
    0x00, 0x00, 0x00, 0x06, 0xFF,
    MODBUS_FC_READ_HOLDING_REGISTERS,
    (start_addr >>> 8) &&& 0xFF,
    start_addr &&& 0xFF,
    (num_registers >>> 8) &&& 0xFF,
    num_registers &&& 0xFF ]

/-- The function `modbus_read_holding_registers(start_addr, num_registers, data)`. -/
def modbus_read_holding_registers (g : Globals) (t : Transport)
    (start_addr num_registers : Nat) : Outcome :=
  if g.sockfd < 0 then
    { status := Status.returned MODBUS_ERROR_CONNECTION, globals := g,
      request := none, log := [], data := [] }
  else
    -- unsigned short current_transaction_id = transaction_id++;
    let current_transaction_id := g.transaction_id
    let g1 : Globals := { g with transaction_id := (g.transaction_id + 1) % 65536 }
    let request := readRequest current_transaction_id start_addr num_registers
    if t.sendResult ≠ 12 then
      { status := Status.returned MODBUS_ERROR_CONNECTION, globals := g1,
        request := some request, log := [Diag.sendFailed], data := [] }
    else
      let received := recvCount t.incoming READ_RESPONSE_SIZE
      let response := recvBuffer t.incoming READ_RESPONSE_SIZE t.stale
      if received < 0 then
        { status := Status.returned MODBUS_ERROR_CONNECTION, globals := g1,
          request := some request, log := [Diag.recvFailed], data := [] }
      else if received < 9 then
        { status := Status.returned MODBUS_ERROR_INVALID_RESPONSE, globals := g1,
          request := some request, log := [Diag.invalidLength received], data := [] }
      else
        if response_transaction_id response ≠ current_transaction_id then
          { status := Status.returned MODBUS_ERROR_INVALID_RESPONSE, globals := g1,
            request := some request, log := [Diag.transactionMismatch], data := [] }
        else if response 7 ≠ MODBUS_FC_READ_HOLDING_REGISTERS ∧ response 7 &&& 0x80 ≠ 0 then
          { status := Status.returned MODBUS_ERROR_INVALID_RESPONSE, globals := g1,
            request := some request, log := [Diag.modbusException (response 8)], data := [] }
        else
          let byte_count := response 8
          if byte_count ≠ num_registers * 2 then
            { status := Status.returned MODBUS_ERROR_INVALID_RESPONSE, globals := g1,
              request := some request, log := [Diag.invalidByteCount byte_count], data := [] }
          else
            let r := decodeRegisters response num_registers 0 []
            { status := r.1, globals := g1, request := some request, log := [], data := r.2 }

/-! ## `modbus_write_single_register` (lines 349-394) -/

/-- Bytes of a write request, lines 365-378. -/
def writeRequest (current_transaction_id address value : Nat) : List Nat :=
  [ (current_transaction_id >>> 8) &&& 0xFF,
    current_transaction_id &&& 0xFF,
    0x00, 0x00, 0x00, 0x06, 0xFF,
    MODBUS_FC_WRITE_SINGLE_REGISTER,
    (address >>> 8) &&& 0xFF,
    address &&& 0xFF,
    (value >>> 8) &&& 0xFF,
    value &&& 0xFF ]

/-- The function `modbus_write_single_register(address, value)`. -/
def modbus_write_single_register (g : Globals) (t : Transport)
    (address value : Nat) : Outcome :=
  if g.sockfd < 0 then
    { status := Status.returned MODBUS_ERROR_CONNECTION, globals := g,
      request := none, log := [], data := [] }
  else
    let current_transaction_id := g.transaction_id
    let g1 : Globals := { g with transaction_id := (g.transaction_id + 1) % 65536 }
    let request := writeRequest current_transaction_id address value
    if t.sendResult ≠ 12 then
      { status := Status.returned MODBUS_ERROR_CONNECTION, globals := g1,
        request := some request, log := [], data := [] }
    else
      let received := recvCount t.incoming WRITE_RESPONSE_SIZE
      if received < 12 then
        { status := Status.returned MODBUS_ERROR_INVALID_RESPONSE, globals := g1,
          request := some request, log := [], data := [] }
      else
        { status := Status.returned MODBUS_SUCCESS, globals := g1,
          request := some request, log := [], data := [] }

/-! ## Telemetry block (lines 28-39, 396-462) -/

/-- The struct `drone_data_t`, ten `unsigned short` fields. -/
structure drone_data_t where
  drone_count : Nat
  threat_level : Nat
  fire_authorized : Nat
  detection_id : Nat
  confidence : Nat
  position_x : Nat
  position_y : Nat
  zone_code : Nat
  timestamp_high : Nat
  timestamp_low : Nat
deriving DecidableEq, Repr

/-- The function `parse_drone_data(registers, drone_data)`, lines 396-407;
`registers` is the array of the caller and `registers[i]` its cell `i`. -/
def parse_drone_data (registers : List Nat) : drone_data_t :=
  { drone_count := registers.getD 0 0,
    threat_level := registers.getD 1 0,
    fire_authorized := registers.getD 2 0,
    detection_id := registers.getD 3 0,
    confidence := registers.getD 4 0,
    position_x := registers.getD 5 0,
    position_y := registers.getD 6 0,
    zone_code := registers.getD 7 0,
    timestamp_high := registers.getD 8 0,
    timestamp_low := registers.getD 9 0 }

/-- The function `get_threat_level_string`, lines 439-447. -/
def get_threat_level_string (level : Nat) : String :=
  match level with
  | 0 => "YOK"
  | 1 => "DUSUK"
  | 2 => "ORTA SEVIYE"
  | 3 => "YUKSEK TEHLIKE"
  | _ => "BILINMEYEN"

/-- The function `get_zone_string`, lines 449-462. -/
def get_zone_string (zone : Nat) : String :=
  match zone with
  | 0 => "MERKEZ"
  | 1 => "KUZEY"
  | 2 => "GUNEY"
  | 3 => "DOGU"
  | 4 => "BATI"
  | 5 => "KUZEYDOGU"
  | 6 => "KUZEYBATI"
  | 7 => "GUNEYDOGU"
  | 8 => "GUNEYBATI"
  | _ => "BILINMEYEN"

/-- The cast `(short)x` of an `unsigned short`. -/
def toShort (x : Nat) : Int :=
  if x % 65536 < 32768 then (x % 65536 : Nat) else ((x % 65536 : Nat) : Int) - 65536

/-- The lines the program prints, one constructor per `printf` (runs of
constant lines are one constructor); numbers are kept as the integers the
format is applied to. -/
inductive Line
  /-- A line of the protocol functions. -/
  | diag (d : Diag)
  /-- Line 201, `Socket olusturma hatasi`. -/
  | socketError
  /-- Line 230, `Baglanti hatasi`. -/
  | connectError
  /-- Lines 98-100, banner with server address. -/
  | banner
  /-- Line 104, `HATA: Modbus server'a baglanamadi!`. -/
  | startupFailed
  /-- Lines 109-110, connected, reading starts. -/
  | startupDone
  /-- Lines 126-129, title, `Son guncelleme` with the current time, rule. -/
  | screenTitle
  /-- Lines 134-135, `*** UYARI: ATES IZNI AKTIF! ***` and the line after. -/
  | fireAlert
  /-- Line 139, `HATA: Modbus veri okuma hatasi (Kod: %d)`. -/
  | readError (result : Int)
  /-- Line 143, `Baglanti koptu, yeniden baglaniliyor...`. -/
  | reconnecting
  /-- Line 147, `Yeniden baglanti basarisiz!`. -/
  | reconnectFailed
  /-- Line 159, `Program sonlandirildi.`. -/
  | terminated
  /-- Lines 410-411, `DRONE TESPIT SISTEMI` and rule. -/
  | systemTitle
  /-- Line 412, `Aktif Drone Sayisi    : %d`. -/
  | droneCount (n : Nat)
  /-- Line 413, `Tehlike Seviyesi      : %s (%d)`. -/
  | threatLevel (name : String) (level : Nat)
  /-- Line 414, `Ates Izni             : %s` with `AKTIF` (true) or `PASIF`. -/
  | fireAuthorized (active : Bool)
  /-- Line 415, empty line. -/
  | blank
  /-- Lines 418-419, `DRONE DETAYLARI` and rule. -/
  | detailsTitle
  /-- Line 420, `Tespit ID             : D%03d`. -/
  | detectionId (id : Nat)
  /-- Line 421, `Guven Orani`, prints `confidence / 10.0`; holds `confidence`. -/
  | confidence (tenths : Nat)
  /-- Line 422, `X Koordinati`, prints `(short)position_x / 1000.0`; holds the short. -/
  | positionX (thousandths : Int)
  /-- Line 423, `Y Koordinati`, prints `(short)position_y / 1000.0`; holds the short. -/
  | positionY (thousandths : Int)
  /-- Line 424, `Bolge                 : %s (%d)`. -/
  | zone (name : String) (code : Nat)
  /-- Line 430, `Tespit Zamani`, prints `ctime` of the timestamp; holds the timestamp. -/
  | detectionTime (timestamp : Nat)
  /-- Line 433, `HIC DRONE TESPIT EDILMEDI`. -/
  | noDrones
  /-- Line 436, closing rule. -/
  | closingRule
deriving DecidableEq, Repr

/-- The function `print_drone_data(data)`, lines 409-437: the lines it prints. -/
def print_drone_data (data : drone_data_t) : List Line :=
  [ Line.systemTitle,
    Line.droneCount data.drone_count,
    Line.threatLevel (get_threat_level_string data.threat_level) data.threat_level,
    Line.fireAuthorized (decide (data.fire_authorized ≠ 0)),
    Line.blank ]
  ++ (if data.drone_count > 0 then
        [ Line.detailsTitle,
          Line.detectionId data.detection_id,
          Line.confidence data.confidence,
          Line.positionX (toShort data.position_x),
          Line.positionY (toShort data.position_y),
          Line.zone (get_zone_string data.zone_code) data.zone_code ]
        -- unsigned long timestamp = ((unsigned long)timestamp_high << 16) | timestamp_low;
        ++ (if ((data.timestamp_high <<< 16) ||| data.timestamp_low) > 0 then
              [Line.detectionTime ((data.timestamp_high <<< 16) ||| data.timestamp_low)]
            else [])
      else
        [Line.noDrones])
  ++ [Line.closingRule]

/-! ## Session: `modbus_connect`, `modbus_disconnect` (lines 189-256) -/

/-- What the program does that can be seen from outside, in order. -/
inductive Event
  /-- A `printf`. -/
  | print (line : Line)
  /-- A call `close(fd)`. -/
  | close (fd : Int)
  /-- A call of `modbus_connect`. -/
  | connectCall
  /-- A call of `modbus_disconnect`. -/
  | disconnectCall
  /-- A call of `modbus_read_holding_registers`. -/
  | readCall
  /-- A call `sleep(seconds)`. -/
  | sleep (seconds : Nat)
  /-- A call of `clear_screen`. -/
  | clearScreen
deriving DecidableEq, Repr

/-- What the system answers during one `modbus_connect`: the value of
`socket(...)` and the value of `connect(...)`. -/
structure ConnectEnv where
  socketResult : Int
  connectResult : Int
deriving DecidableEq, Repr

/-- Result of `modbus_connect`: returned code, globals, events after the call event. -/
structure ConnectOutcome where
  code : Int
  globals : Globals
  events : List Event
deriving DecidableEq, Repr

/-- The function `modbus_connect(ip_address, port)`, lines 189-242 (the
branch without `_WIN32`). -/
def modbus_connect (g : Globals) (e : ConnectEnv) : ConnectOutcome :=
  -- sockfd = socket(AF_INET, SOCK_STREAM, 0);
  let g1 : Globals := { g with sockfd := e.socketResult }
  if g1.sockfd < 0 then
    { code := MODBUS_ERROR_CONNECTION, globals := g1, events := [Event.print Line.socketError] }
  else if e.connectResult < 0 then
    { code := MODBUS_ERROR_CONNECTION, globals := { g1 with sockfd := -1 },
      events := [Event.print Line.connectError, Event.close g1.sockfd] }
  else
    { code := MODBUS_SUCCESS, globals := g1, events := [] }

/-- The function `modbus_disconnect()`, lines 244-256 (the branch without
`_WIN32`): the globals it leaves and the `close` it performs. -/
def modbus_disconnect (g : Globals) : Globals × List Event :=
  if g.sockfd ≥ 0 then
    ({ g with sockfd := -1 }, [Event.close g.sockfd])
  else
    (g, [])

/-! ## Sequences of calls -/

/-- One call of a protocol or session function, with what the outside does
while it runs. -/
inductive Call
  | read (start_addr num_registers : Nat) (t : Transport)
  | write (address value : Nat) (t : Transport)
  | connect (e : ConnectEnv)
  | disconnect

/-- Is the call a read or a write. -/
def Call.isRequest : Call → Bool
  | Call.read _ _ _ => true
  | Call.write _ _ _ => true
  | Call.connect _ => false
  | Call.disconnect => false

/-- Run one call and keep the globals it leaves. -/
def Call.run (g : Globals) : Call → Globals
  | Call.read start_addr num_registers t =>
    (modbus_read_holding_registers g t start_addr num_registers).globals
  | Call.write address value t =>
    (modbus_write_single_register g t address value).globals
  | Call.connect e => (modbus_connect g e).globals
  | Call.disconnect => (modbus_disconnect g).1

/-- The request the call hands to `send`, if it hands one. -/
def Call.request (g : Globals) : Call → Option (List Nat)
  | Call.read start_addr num_registers t =>
    (modbus_read_holding_registers g t start_addr num_registers).request
  | Call.write address value t =>
    (modbus_write_single_register g t address value).request
  | Call.connect _ => none
  | Call.disconnect => none

/-- Run calls one after the other. -/
def runCalls (g : Globals) (calls : List Call) : Globals :=
  calls.foldl Call.run g

/-- Number of requests issued while the calls run one after the other from
`g`: the calls that hand a request to `send`. -/
def issuedRequests (g : Globals) : List Call → Nat
  | [] => 0
  | c :: cs => (if (Call.request g c).isSome then 1 else 0) + issuedRequests (Call.run g c) cs

/-! ## The polling loop of `main` (lines 80-161) -/

/-- What the outside does during one turn of the loop: the socket during the
read, and the system during the `modbus_connect` of line 146 if it is reached. -/
structure CycleEnv where
  transport : Transport
  reconnect : ConnectEnv

/-- How one turn of `while (1)` ends: at `sleep(1)` and on to the next turn,
at the `break` of line 148, or in an access outside `response`. -/
inductive Flow
  | next
  | stop
  | undefined
deriving DecidableEq, Repr

/-- State after a turn of the loop, with the events of the turn. -/
structure CycleOutcome where
  flow : Flow
  globals : Globals
  registers : List Nat
  events : List Event
deriving DecidableEq, Repr

/-- The array `registers` after the stores `data[0] = ..`, `data[1] = ..` of a read. -/
def storeRegisters (registers data : List Nat) : List Nat :=
  data ++ registers.drop data.length

/-- One turn of the loop of `main`, lines 117-154. -/
def pollCycle (g : Globals) (registers : List Nat) (e : CycleEnv) : CycleOutcome :=
  -- int result = modbus_read_holding_registers(0, 10, registers);
  let out := modbus_read_holding_registers g e.transport 0 10
  let registers1 := storeRegisters registers out.data
  let readEvents := Event.readCall :: out.log.map fun d => Event.print (Line.diag d)
  match out.status with
  | Status.outOfBounds _ =>
    { flow := Flow.undefined, globals := out.globals, registers := registers1,
      events := readEvents }
  | Status.returned result =>
    if result = MODBUS_SUCCESS then
      let drone_data := parse_drone_data registers1
      { flow := Flow.next, globals := out.globals, registers := registers1,
        events := readEvents
          ++ [Event.clearScreen, Event.print Line.screenTitle]
          ++ (print_drone_data drone_data).map Event.print
          ++ (if drone_data.fire_authorized ≠ 0 ∧ drone_data.drone_count > 0 then
                [Event.print Line.fireAlert]
              else [])
          ++ [Event.sleep 1] }
    else if result = MODBUS_ERROR_CONNECTION then
      let d := modbus_disconnect out.globals
      let c := modbus_connect d.1 e.reconnect
      if c.code ≠ MODBUS_SUCCESS then
        { flow := Flow.stop, globals := c.globals, registers := registers1,
          events := readEvents
            ++ [Event.print (Line.readError result), Event.print Line.reconnecting,
                Event.disconnectCall]
            ++ d.2 ++ [Event.sleep 2, Event.connectCall] ++ c.events
            ++ [Event.print Line.reconnectFailed] }
      else
        { flow := Flow.next, globals := c.globals, registers := registers1,
          events := readEvents
            ++ [Event.print (Line.readError result), Event.print Line.reconnecting,
                Event.disconnectCall]
            ++ d.2 ++ [Event.sleep 2, Event.connectCall] ++ c.events
            ++ [Event.sleep 1] }
    else
      { flow := Flow.next, globals := out.globals, registers := registers1,
        events := readEvents ++ [Event.print (Line.readError result), Event.sleep 1] }

/-- The loop `while (1)` run on the turns the list describes: it goes on
while turns end at `sleep(1)` and stops at the first `break`. With the list
used up the loop is still running (`Flow.next`). -/
def pollLoop (g : Globals) (registers : List Nat) : List CycleEnv → CycleOutcome
  | [] => { flow := Flow.next, globals := g, registers := registers, events := [] }
  | e :: es =>
    match (pollCycle g registers e).flow with
    | Flow.next =>
      { pollLoop (pollCycle g registers e).globals (pollCycle g registers e).registers es with
        events := (pollCycle g registers e).events
          ++ (pollLoop (pollCycle g registers e).globals
                (pollCycle g registers e).registers es).events }
    | Flow.stop => pollCycle g registers e
    | Flow.undefined => pollCycle g registers e

/-- What `main` is given: the system during the first `modbus_connect`, the
contents of the local array `registers` before the first read, and the turns
of the loop. -/
structure MainEnv where
  startup : ConnectEnv
  registers : List Nat
  cycles : List CycleEnv

/-- Result of `main`: the value it returns (`none` while the loop is still
running when the described turns are used up, or after an access outside
`response`), the globals and the events. -/
structure MainOutcome where
  exit : Option Int
  globals : Globals
  events : List Event
deriving DecidableEq, Repr

/-- The function `main`, lines 80-161; `init_winsock` returns 0 without `_WIN32`. -/
def main (g : Globals) (env : MainEnv) : MainOutcome :=
  let c := modbus_connect g env.startup
  if c.code ≠ MODBUS_SUCCESS then
    { exit := some (-1), globals := c.globals,
      events := [Event.print Line.banner, Event.connectCall] ++ c.events
        ++ [Event.print Line.startupFailed] }
  else
    let r := pollLoop c.globals env.registers env.cycles
    let startEvents := [Event.print Line.banner, Event.connectCall] ++ c.events
        ++ [Event.print Line.startupDone]
    match r.flow with
    | Flow.stop =>
      -- modbus_disconnect(); cleanup_winsock(); printf(...); return 0;
      let d := modbus_disconnect r.globals
      { exit := some 0, globals := d.1,
        events := startEvents ++ r.events ++ [Event.disconnectCall] ++ d.2
          ++ [Event.print Line.terminated] }
    | Flow.next => { exit := none, globals := r.globals, events := startEvents ++ r.events }
    | Flow.undefined => { exit := none, globals := r.globals, events := startEvents ++ r.events }

/-! ## Test data: the frame a server answers a read with -/

/-- Big-endian bytes of a list of 16-bit values. -/
def registerBytes : List Nat → List Nat
  | [] => []
  | v :: vs => ((v >>> 8) &&& 0xFF) :: (v &&& 0xFF) :: registerBytes vs

/-- The well-formed response to a read of `values.length` registers sent with
transaction id `tid`: header (transaction id, protocol id 0, length, unit id
0xFF), function code 0x03, byte count, then the values big-endian. -/
def wellFormedResponse (tid : Nat) (values : List Nat) : List Nat :=
  [ (tid >>> 8) &&& 0xFF, tid &&& 0xFF, 0x00, 0x00,
    ((3 + 2 * values.length) >>> 8) &&& 0xFF, (3 + 2 * values.length) &&& 0xFF, 0xFF,
    MODBUS_FC_READ_HOLDING_REGISTERS, (2 * values.length) &&& 0xFF ] ++ registerBytes values

/-- A connected session whose next transaction id is `tid`. -/
def connected (tid : Nat) : Globals := { sockfd := 3, transaction_id := tid }

/-- A transport that takes the whole request and delivers `bytes`; untouched
cells of the response array hold 0xAA. -/
def answering (bytes : List Nat) : Transport :=
  { sendResult := 12, incoming := some bytes, stale := fun _ => 0xAA }

/-- A transport that takes the whole request and whose `recv` fails. -/
def recvFailing : Transport :=
  { sendResult := 12, incoming := none, stale := fun _ => 0xAA }

/-- The system refuses the connection: `socket` gives descriptor 4, `connect` fails. -/
def refusing : ConnectEnv := { socketResult := 4, connectResult := -1 }

/-- The system accepts the connection on descriptor 4. -/
def accepting : ConnectEnv := { socketResult := 4, connectResult := 0 }

/-- Register values of Scenario A, the first ten of the payload:
`-500` is 65036 as `unsigned short`, `1700000000 >> 16` is 25939. -/
def scenarioA : List Nat := [2, 1, 1, 7, 955, 65036, 65036, 3, 0, 25939]

end ModbusClient

namespace ModbusClient

/-! ## Arithmetic of bytes and 16-bit words -/

theorem and_0xFF (x : Nat) : x &&& 0xFF = x % 256 :=
  Nat.and_pow_two_sub_one_eq_mod x 8

theorem shiftRight_8 (x : Nat) : x >>> 8 = x / 256 :=
  Nat.shiftRight_eq_div_pow x 8

theorem high_byte_of_u16 {x : Nat} (h : x < 65536) : (x >>> 8) &&& 0xFF = x >>> 8 := by
  rw [and_0xFF, shiftRight_8]
  omega

theorem combine_bytes {hi lo : Nat} (h : lo < 256) : (hi <<< 8) ||| lo = hi * 256 + lo := by
  have key : 2 ^ 8 * hi + lo = 2 ^ 8 * hi ||| lo := Nat.mul_add_lt_is_or h hi
  rw [Nat.shiftLeft_eq, Nat.mul_comm hi (2 ^ 8), ← key]

theorem combine_split_u16 {v : Nat} (h : v < 65536) :
    (((((v >>> 8) &&& 0xFF) % 256) <<< 8) ||| ((v &&& 0xFF) % 256)) % 65536 = v := by
  rw [combine_bytes (Nat.mod_lt _ (by decide)), and_0xFF, and_0xFF, shiftRight_8]
  omega

/-! ## What every call on a connected session does -/

theorem read_request_of_connected (g : Globals) (t : Transport) (start_addr num_registers : Nat)
    (hconn : 0 ≤ g.sockfd) :
    (modbus_read_holding_registers g t start_addr num_registers).request =
      some (readRequest g.transaction_id start_addr num_registers) := by
  have hfd : ¬ g.sockfd < 0 := not_lt.mpr hconn
  simp only [modbus_read_holding_registers, if_neg hfd]
  split_ifs <;> rfl

theorem write_request_of_connected (g : Globals) (t : Transport) (address value : Nat)
    (hconn : 0 ≤ g.sockfd) :
    (modbus_write_single_register g t address value).request =
      some (writeRequest g.transaction_id address value) := by
  have hfd : ¬ g.sockfd < 0 := not_lt.mpr hconn
  simp only [modbus_write_single_register, if_neg hfd]
  split_ifs <;> rfl

theorem read_globals_of_connected (g : Globals) (t : Transport) (start_addr num_registers : Nat)
    (hconn : 0 ≤ g.sockfd) :
    (modbus_read_holding_registers g t start_addr num_registers).globals =
      { sockfd := g.sockfd, transaction_id := (g.transaction_id + 1) % 65536 } := by
  have hfd : ¬ g.sockfd < 0 := not_lt.mpr hconn
  simp only [modbus_read_holding_registers, if_neg hfd]
  split_ifs <;> rfl

theorem write_globals_of_connected (g : Globals) (t : Transport) (address value : Nat)
    (hconn : 0 ≤ g.sockfd) :
    (modbus_write_single_register g t address value).globals =
      { sockfd := g.sockfd, transaction_id := (g.transaction_id + 1) % 65536 } := by
  have hfd : ¬ g.sockfd < 0 := not_lt.mpr hconn
  simp only [modbus_write_single_register, if_neg hfd]
  split_ifs <;> rfl

/-! ## The requests (claims C2, C3) -/

/-- C2. On a connected session, whatever the socket then does, the request
`modbus_read_holding_registers` hands to `send` is the 12 bytes
`[T>>8, T&0xFF, 0, 0, 0, 6, 0xFF, 0x03, start>>8, start&0xFF, count>>8, count&0xFF]`,
where `T` is the current transaction id. -/
theorem read_request_is_twelve_bytes (g : Globals) (t : Transport) (start_addr num_registers : Nat)
    (hconn : 0 ≤ g.sockfd) (hT : g.transaction_id < 65536)
    (hs : start_addr < 65536) (hn : num_registers < 65536) :
    (modbus_read_holding_registers g t start_addr num_registers).request =
      some [g.transaction_id >>> 8, g.transaction_id &&& 0xFF, 0x00, 0x00, 0x00, 0x06, 0xFF, 0x03,
            start_addr >>> 8, start_addr &&& 0xFF, num_registers >>> 8, num_registers &&& 0xFF] := by
  have hreq : readRequest g.transaction_id start_addr num_registers =
      [g.transaction_id >>> 8, g.transaction_id &&& 0xFF, 0x00, 0x00, 0x00, 0x06, 0xFF, 0x03,
       start_addr >>> 8, start_addr &&& 0xFF, num_registers >>> 8, num_registers &&& 0xFF] := by
    simp only [readRequest, high_byte_of_u16 hT, high_byte_of_u16 hs, high_byte_of_u16 hn]
  rw [read_request_of_connected g t start_addr num_registers hconn, hreq]

/-- C3. On a connected session the request `modbus_write_single_register`
hands to `send` has exactly 12 bytes: the header of a read request (`T`
big-endian, protocol id 0, length 6, unit id 0xFF), then function code 0x06,
the address big-endian and the value big-endian. -/
theorem write_request_is_twelve_bytes (g : Globals) (t : Transport) (address value : Nat)
    (hconn : 0 ≤ g.sockfd) (hT : g.transaction_id < 65536)
    (ha : address < 65536) (hv : value < 65536) :
    (modbus_write_single_register g t address value).request =
      some [g.transaction_id >>> 8, g.transaction_id &&& 0xFF, 0x00, 0x00, 0x00, 0x06, 0xFF, 0x06,
            address >>> 8, address &&& 0xFF, value >>> 8, value &&& 0xFF] ∧
    (∀ start_addr num_registers : Nat,
      ((modbus_write_single_register g t address value).request.getD []).take 7 =
        ((modbus_read_holding_registers g t start_addr num_registers).request.getD []).take 7) ∧
    ((modbus_write_single_register g t address value).request.getD []).length = 12 := by
  have hreq : writeRequest g.transaction_id address value =
      [g.transaction_id >>> 8, g.transaction_id &&& 0xFF, 0x00, 0x00, 0x00, 0x06, 0xFF, 0x06,
       address >>> 8, address &&& 0xFF, value >>> 8, value &&& 0xFF] := by
    simp only [writeRequest, high_byte_of_u16 hT, high_byte_of_u16 ha, high_byte_of_u16 hv]
  have hw := write_request_of_connected g t address value hconn
  refine ⟨by rw [hw, hreq], ?_, by rw [hw]; rfl⟩
  intro start_addr num_registers
  rw [hw, read_request_of_connected g t start_addr num_registers hconn]
  rfl

/-- Witness of C2: transaction id 0x1234, start address 0x0010, 10 registers. -/
theorem read_request_is_twelve_bytes_witness :
    (0 : Int) ≤ (connected 0x1234).sockfd ∧
    (modbus_read_holding_registers (connected 0x1234) recvFailing 0x0010 10).request =
      some [0x12, 0x34, 0x00, 0x00, 0x00, 0x06, 0xFF, 0x03, 0x00, 0x10, 0x00, 0x0A] :=
  ⟨by decide,
   read_request_is_twelve_bytes (connected 0x1234) recvFailing 0x0010 10
     (by decide) (by decide) (by decide) (by decide)⟩

/-- Witness of C3: transaction id 0xFFFF, address 0x0102, value 0xABCD. -/
theorem write_request_is_twelve_bytes_witness :
    (0 : Int) ≤ (connected 0xFFFF).sockfd ∧
    (modbus_write_single_register (connected 0xFFFF) recvFailing 0x0102 0xABCD).request =
      some [0xFF, 0xFF, 0x00, 0x00, 0x00, 0x06, 0xFF, 0x06, 0x01, 0x02, 0xAB, 0xCD] :=
  ⟨by decide,
   (write_request_is_twelve_bytes (connected 0xFFFF) recvFailing 0x0102 0xABCD
     (by decide) (by decide) (by decide) (by decide)).1⟩

/-! ## The decoding loop -/

/-- A loop with no register left returns success and stores nothing more. -/
theorem decodeRegisters_zero (response : Nat → Nat) (i : Nat) (stored : List Nat) :
    decodeRegisters response 0 i stored = (Status.returned MODBUS_SUCCESS, stored) := rfl

/-- While every index stays below 256 the loop runs to the end and stores one
value per register, each read big-endian from offsets `9 + 2 i`, `10 + 2 i`. -/
theorem decodeRegisters_in_bounds (response : Nat → Nat) :
    ∀ (n i : Nat) (stored : List Nat), 9 + 2 * (i + n) ≤ 256 →
      decodeRegisters response n i stored =
        (Status.returned MODBUS_SUCCESS,
         stored ++ (List.range n).map fun j =>
           ((response (9 + (i + j) * 2) <<< 8) ||| response (10 + (i + j) * 2)) % 65536) := by
  intro n
  induction n with
  | zero => intro i stored _; simp [decodeRegisters]
  | succ n ih =>
    intro i stored h
    have hlt : 10 + i * 2 < READ_RESPONSE_SIZE := by
      show 10 + i * 2 < 256
      omega
    rw [decodeRegisters, if_pos hlt, ih (i + 1) _ (by omega)]
    rw [List.range_succ_eq_map, List.map_cons, List.map_map, List.append_assoc]
    have hfun : ((fun j => ((response (9 + (i + j) * 2) <<< 8) |||
          response (10 + (i + j) * 2)) % 65536) ∘ Nat.succ) =
        fun j => ((response (9 + (i + 1 + j) * 2) <<< 8) |||
          response (10 + (i + 1 + j) * 2)) % 65536 := by
      funext j
      simp only [Function.comp, Nat.succ_eq_add_one]
      rw [show i + (j + 1) = i + 1 + j by omega]
    rw [hfun]
    simp

/-- A loop that starts inside the array and is asked to go past register 123
ends at the access to `response[256]`. -/
theorem decodeRegisters_out_of_bounds (response : Nat → Nat) :
    ∀ (n i : Nat) (stored : List Nat), i ≤ 123 → 124 ≤ i + n →
      (decodeRegisters response n i stored).1 = Status.outOfBounds 256 := by
  intro n
  induction n with
  | zero => intro i stored h1 h2; omega
  | succ n ih =>
    intro i stored h1 h2
    by_cases hlt : 10 + i * 2 < READ_RESPONSE_SIZE
    · rw [decodeRegisters, if_pos hlt]
      have h256 : 10 + i * 2 < 256 := hlt
      exact ih (i + 1) _ (by omega) (by omega)
    · rw [decodeRegisters, if_neg hlt]
      have h256 : ¬ 10 + i * 2 < 256 := hlt
      have hi : i = 123 := by omega
      subst hi
      rfl

/-! ## The validation of a read response -/

theorem exception_bit_excludes_read_code {x : Nat} (h : x &&& 0x80 ≠ 0) :
    x ≠ MODBUS_FC_READ_HOLDING_REGISTERS := by
  intro hx
  rw [hx] at h
  exact h (by decide)

/-- The body of `modbus_read_holding_registers` once the session is connected,
`send` took the request and `recv` delivered `bytes`: a cascade of four
checks, then the decoding loop. -/
theorem read_after_recv (g : Globals) (t : Transport) (start_addr num_registers : Nat)
    (bytes : List Nat) (hconn : 0 ≤ g.sockfd) (hsend : t.sendResult = 12)
    (hin : t.incoming = some bytes) :
    modbus_read_holding_registers g t start_addr num_registers =
      if (bytes.take READ_RESPONSE_SIZE).length < 9 then
        { status := Status.returned MODBUS_ERROR_INVALID_RESPONSE,
          globals := { sockfd := g.sockfd, transaction_id := (g.transaction_id + 1) % 65536 },
          request := some (readRequest g.transaction_id start_addr num_registers),
          log := [Diag.invalidLength ((bytes.take READ_RESPONSE_SIZE).length : Int)], data := [] }
      else if response_transaction_id (recvBuffer (some bytes) READ_RESPONSE_SIZE t.stale)
          ≠ g.transaction_id then
        { status := Status.returned MODBUS_ERROR_INVALID_RESPONSE,
          globals := { sockfd := g.sockfd, transaction_id := (g.transaction_id + 1) % 65536 },
          request := some (readRequest g.transaction_id start_addr num_registers),
          log := [Diag.transactionMismatch], data := [] }
      else if recvBuffer (some bytes) READ_RESPONSE_SIZE t.stale 7 &&& 0x80 ≠ 0 then
        { status := Status.returned MODBUS_ERROR_INVALID_RESPONSE,
          globals := { sockfd := g.sockfd, transaction_id := (g.transaction_id + 1) % 65536 },
          request := some (readRequest g.transaction_id start_addr num_registers),
          log := [Diag.modbusException (recvBuffer (some bytes) READ_RESPONSE_SIZE t.stale 8)],
          data := [] }
      else if recvBuffer (some bytes) READ_RESPONSE_SIZE t.stale 8 ≠ num_registers * 2 then
        { status := Status.returned MODBUS_ERROR_INVALID_RESPONSE,
          globals := { sockfd := g.sockfd, transaction_id := (g.transaction_id + 1) % 65536 },
          request := some (readRequest g.transaction_id start_addr num_registers),
          log := [Diag.invalidByteCount (recvBuffer (some bytes) READ_RESPONSE_SIZE t.stale 8)],
          data := [] }
      else
        { status := (decodeRegisters (recvBuffer (some bytes) READ_RESPONSE_SIZE t.stale)
            num_registers 0 []).1,
          globals := { sockfd := g.sockfd, transaction_id := (g.transaction_id + 1) % 65536 },
          request := some (readRequest g.transaction_id start_addr num_registers),
          log := [],
          data := (decodeRegisters (recvBuffer (some bytes) READ_RESPONSE_SIZE t.stale)
            num_registers 0 []).2 } := by
  have hfd : ¬ g.sockfd < 0 := not_lt.mpr hconn
  have hnn : ¬ recvCount (some bytes) READ_RESPONSE_SIZE < 0 := by
    simp only [recvCount]
    omega
  have h9 : recvCount (some bytes) READ_RESPONSE_SIZE < 9 ↔
      (bytes.take READ_RESPONSE_SIZE).length < 9 := by
    simp only [recvCount]
    omega
  simp only [modbus_read_holding_registers, if_neg hfd, hsend, hin, ne_eq, not_true_eq_false,
    if_false, if_neg hnn, h9]
  by_cases hx : recvBuffer (some bytes) READ_RESPONSE_SIZE t.stale 7 &&& 0x80 = 0
  · simp only [hx, not_true_eq_false, and_false, if_false]
    rfl
  · have h3 := exception_bit_excludes_read_code hx
    simp only [hx, h3, not_false_eq_true, and_self, if_true]
    rfl

/-- The checks of a read response, in their order. With `received` the number
of bytes `recv` stored and `response` the array after `recv`:
(a) `received < 9` gives the invalid length line and -2;
(b) else a different transaction id gives the mismatch line and -2;
(c) else bit 0x80 in `response[7]` gives the exception line with `response[8]` and -2;
(d) else `response[8] ≠ num_registers * 2` gives the byte count line and -2;
(e) else, when the registers asked for fit the array (`9 + 2 * num_registers ≤ 256`),
success with `num_registers` values, value `i` being
`response[9 + 2 i] * 256 + response[10 + 2 i]`. -/
theorem read_validation_order (g : Globals) (t : Transport) (start_addr num_registers : Nat)
    (bytes : List Nat) (hconn : 0 ≤ g.sockfd) (hsend : t.sendResult = 12)
    (hin : t.incoming = some bytes) :
    ((bytes.take READ_RESPONSE_SIZE).length < 9 →
      (modbus_read_holding_registers g t start_addr num_registers).status
          = Status.returned MODBUS_ERROR_INVALID_RESPONSE ∧
      (modbus_read_holding_registers g t start_addr num_registers).log
          = [Diag.invalidLength ((bytes.take READ_RESPONSE_SIZE).length : Int)] ∧
      (modbus_read_holding_registers g t start_addr num_registers).data = []) ∧
    (9 ≤ (bytes.take READ_RESPONSE_SIZE).length →
      response_transaction_id (recvBuffer t.incoming READ_RESPONSE_SIZE t.stale)
          ≠ g.transaction_id →
      (modbus_read_holding_registers g t start_addr num_registers).status
          = Status.returned MODBUS_ERROR_INVALID_RESPONSE ∧
      (modbus_read_holding_registers g t start_addr num_registers).log
          = [Diag.transactionMismatch] ∧
      (modbus_read_holding_registers g t start_addr num_registers).data = []) ∧
    (9 ≤ (bytes.take READ_RESPONSE_SIZE).length →
      response_transaction_id (recvBuffer t.incoming READ_RESPONSE_SIZE t.stale)
          = g.transaction_id →
      recvBuffer t.incoming READ_RESPONSE_SIZE t.stale 7 &&& 0x80 ≠ 0 →
      (modbus_read_holding_registers g t start_addr num_registers).status
          = Status.returned MODBUS_ERROR_INVALID_RESPONSE ∧
      (modbus_read_holding_registers g t start_addr num_registers).log
          = [Diag.modbusException (recvBuffer t.incoming READ_RESPONSE_SIZE t.stale 8)] ∧
      (modbus_read_holding_registers g t start_addr num_registers).data = []) ∧
    (9 ≤ (bytes.take READ_RESPONSE_SIZE).length →
      response_transaction_id (recvBuffer t.incoming READ_RESPONSE_SIZE t.stale)
          = g.transaction_id →
      recvBuffer t.incoming READ_RESPONSE_SIZE t.stale 7 &&& 0x80 = 0 →
      recvBuffer t.incoming READ_RESPONSE_SIZE t.stale 8 ≠ num_registers * 2 →
      (modbus_read_holding_registers g t start_addr num_registers).status
          = Status.returned MODBUS_ERROR_INVALID_RESPONSE ∧
      (modbus_read_holding_registers g t start_addr num_registers).log
          = [Diag.invalidByteCount (recvBuffer t.incoming READ_RESPONSE_SIZE t.stale 8)] ∧
      (modbus_read_holding_registers g t start_addr num_registers).data = []) ∧
    (9 ≤ (bytes.take READ_RESPONSE_SIZE).length →
      response_transaction_id (recvBuffer t.incoming READ_RESPONSE_SIZE t.stale)
          = g.transaction_id →
      recvBuffer t.incoming READ_RESPONSE_SIZE t.stale 7 &&& 0x80 = 0 →
      recvBuffer t.incoming READ_RESPONSE_SIZE t.stale 8 = num_registers * 2 →
      9 + 2 * num_registers ≤ READ_RESPONSE_SIZE →
      (modbus_read_holding_registers g t start_addr num_registers).status
          = Status.returned MODBUS_SUCCESS ∧
      (modbus_read_holding_registers g t start_addr num_registers).log = [] ∧
      (modbus_read_holding_registers g t start_addr num_registers).data
          = (List.range num_registers).map fun i =>
              recvBuffer t.incoming READ_RESPONSE_SIZE t.stale (9 + i * 2) * 256
                + recvBuffer t.incoming READ_RESPONSE_SIZE t.stale (10 + i * 2)) := by
  rw [read_after_recv g t start_addr num_registers bytes hconn hsend hin, hin]
  refine ⟨?_, ?_, ?_, ?_, ?_⟩
  · intro h
    simp only [if_pos h, and_self]
  · intro h htid
    simp only [if_neg (not_lt.mpr h), if_pos htid, and_self]
  · intro h htid hfc
    simp only [if_neg (not_lt.mpr h), htid, ne_eq, not_true_eq_false, if_false, hfc,
      not_false_eq_true, if_true, and_self]
  · intro h htid hfc hbc
    simp only [if_neg (not_lt.mpr h), htid, ne_eq, not_true_eq_false, if_false, hfc, hbc,
      not_false_eq_true, if_true, and_self]
  · intro h htid hfc hbc hfit
    simp only [if_neg (not_lt.mpr h), htid, ne_eq, not_true_eq_false, if_false, hfc, hbc]
    rw [decodeRegisters_in_bounds _ num_registers 0 [] (by simpa using hfit)]
    simp only [List.nil_append, Nat.zero_add, true_and]
    apply List.map_congr_left
    intro i _
    have hlo : recvBuffer (some bytes) READ_RESPONSE_SIZE t.stale (10 + i * 2) < 256 := by
      simp only [recvBuffer]
      exact Nat.mod_lt _ (by decide)
    have hhi : recvBuffer (some bytes) READ_RESPONSE_SIZE t.stale (9 + i * 2) < 256 := by
      simp only [recvBuffer]
      exact Nat.mod_lt _ (by decide)
    rw [combine_bytes hlo]
    omega

/-! ## Round trip of a well-formed response (claim C1) -/

theorem registerBytes_length (values : List Nat) :
    (registerBytes values).length = 2 * values.length := by
  induction values with
  | nil => rfl
  | cons v vs ih => simp only [registerBytes, List.length_cons, ih]; omega

theorem wellFormedResponse_length (tid : Nat) (values : List Nat) :
    (wellFormedResponse tid values).length = 9 + 2 * values.length := by
  simp only [wellFormedResponse, List.length_append, registerBytes_length, List.length_cons,
    List.length_nil]

/-- On an array that holds the big-endian bytes of `values` from offset
`9 + 2 i` on, the loop entered at `i` stores exactly `values`. -/
theorem decodeRegisters_registerBytes (response : Nat → Nat) :
    ∀ (values : List Nat) (i : Nat) (stored : List Nat),
      (∀ v ∈ values, v < 65536) →
      9 + 2 * (i + values.length) ≤ 256 →
      (∀ m, m < 2 * values.length →
        response (9 + 2 * i + m) = (registerBytes values).getD m 0 % 256) →
      decodeRegisters response values.length i stored =
        (Status.returned MODBUS_SUCCESS, stored ++ values) := by
  intro values
  induction values with
  | nil => intro i stored _ _ _; simp [decodeRegisters]
  | cons v vs ih =>
    intro i stored hv hfit hbuf
    have hlt : 10 + i * 2 < READ_RESPONSE_SIZE := by
      show 10 + i * 2 < 256
      simp only [List.length_cons] at hfit
      omega
    have h0 : response (9 + i * 2) = ((v >>> 8) &&& 0xFF) % 256 := by
      have := hbuf 0 (by simp only [List.length_cons]; omega)
      rw [show 9 + 2 * i + 0 = 9 + i * 2 by omega] at this
      rw [this]
      rfl
    have h1 : response (10 + i * 2) = (v &&& 0xFF) % 256 := by
      have := hbuf 1 (by simp only [List.length_cons]; omega)
      rw [show 9 + 2 * i + 1 = 10 + i * 2 by omega] at this
      rw [this]
      rfl
    have hvlt : v < 65536 := hv v (List.mem_cons_self v vs)
    rw [List.length_cons, decodeRegisters, if_pos hlt, h0, h1, combine_split_u16 hvlt]
    rw [ih (i + 1) (stored ++ [v]) (fun w hw => hv w (List.mem_cons_of_mem v hw))
      (by simp only [List.length_cons] at hfit; omega)]
    · simp
    · intro m hm
      have := hbuf (m + 2) (by simp only [List.length_cons]; omega)
      rw [show 9 + 2 * i + (m + 2) = 9 + 2 * (i + 1) + m by omega] at this
      rw [this]
      rfl

/-- Round trip for the counts whose response fits the 256-byte array: for a
connected session, every start address, every list of 1 to 123 values below
65536, a read of that many registers answered by the well-formed response
returns success and stores exactly these values. -/
theorem read_well_formed_response_up_to_123 (g : Globals) (t : Transport) (start_addr : Nat)
    (values : List Nat) (hconn : 0 ≤ g.sockfd) (hT : g.transaction_id < 65536)
    (hsend : t.sendResult = 12)
    (hin : t.incoming = some (wellFormedResponse g.transaction_id values))
    (hlen : values.length ≤ 123) (hv : ∀ v ∈ values, v < 65536) :
    (modbus_read_holding_registers g t start_addr values.length).status
        = Status.returned MODBUS_SUCCESS ∧
    (modbus_read_holding_registers g t start_addr values.length).data = values := by
  have hL := wellFormedResponse_length g.transaction_id values
  have htake : (wellFormedResponse g.transaction_id values).take READ_RESPONSE_SIZE
      = wellFormedResponse g.transaction_id values :=
    List.take_of_length_le (by rw [hL]; show 9 + 2 * values.length ≤ 256; omega)
  have hbuf : ∀ k, recvBuffer (some (wellFormedResponse g.transaction_id values))
      READ_RESPONSE_SIZE t.stale k
        = (wellFormedResponse g.transaction_id values).getD k (t.stale k) % 256 := by
    intro k
    simp only [recvBuffer, htake]
  have h9 : ¬ ((wellFormedResponse g.transaction_id values).take READ_RESPONSE_SIZE).length < 9 := by
    rw [htake, hL]
    omega
  have htid : response_transaction_id
      (recvBuffer (some (wellFormedResponse g.transaction_id values)) READ_RESPONSE_SIZE t.stale)
        = g.transaction_id := by
    simp only [response_transaction_id, hbuf]
    exact combine_split_u16 hT
  have hfc : recvBuffer (some (wellFormedResponse g.transaction_id values))
      READ_RESPONSE_SIZE t.stale 7 &&& 0x80 = 0 := by
    rw [hbuf]
    simp only [wellFormedResponse, List.cons_append, List.nil_append, List.getD_cons_succ,
      List.getD_cons_zero]
    decide
  have hbc : recvBuffer (some (wellFormedResponse g.transaction_id values))
      READ_RESPONSE_SIZE t.stale 8 = values.length * 2 := by
    rw [hbuf]
    show ((2 * values.length) &&& 0xFF) % 256 = values.length * 2
    rw [and_0xFF]
    omega
  have hloop := decodeRegisters_registerBytes
    (recvBuffer (some (wellFormedResponse g.transaction_id values)) READ_RESPONSE_SIZE t.stale)
    values 0 [] hv (by omega) (by
      intro m hm
      rw [hbuf]
      have hm2 : m < (registerBytes values).length := by rw [registerBytes_length]; exact hm
      rw [show 9 + 2 * 0 + m = m + 9 by omega]
      simp only [wellFormedResponse, List.cons_append, List.nil_append, List.getD_cons_succ]
      rw [List.getD_eq_getElem _ _ hm2, List.getD_eq_getElem _ _ hm2])
  rw [read_after_recv g t start_addr values.length _ hconn hsend hin]
  simp only [if_neg h9, htid, ne_eq, not_true_eq_false, if_false, hfc, hbc, hloop,
    List.nil_append, and_self]

theorem connection_error_ne_success :
    Status.returned MODBUS_ERROR_CONNECTION ≠ Status.returned MODBUS_SUCCESS := by decide

theorem invalid_response_ne_success :
    Status.returned MODBUS_ERROR_INVALID_RESPONSE ≠ Status.returned MODBUS_SUCCESS := by decide

/-- No read of 124 registers or more returns success, whatever the session
and the socket do: up to 127 registers a matching byte count sends the loop
to `response[256]`, from 128 on the byte count cannot match. -/
theorem read_never_succeeds_above_123 (g : Globals) (t : Transport)
    (start_addr num_registers : Nat) (hn : 124 ≤ num_registers) :
    (modbus_read_holding_registers g t start_addr num_registers).status
      ≠ Status.returned MODBUS_SUCCESS := by
  by_cases hfd : g.sockfd < 0
  · simp only [modbus_read_holding_registers, if_pos hfd]
    exact connection_error_ne_success
  · by_cases hsend : t.sendResult = 12
    · cases hin : t.incoming with
      | none =>
        have hneg : recvCount none READ_RESPONSE_SIZE < 0 := by decide
        simp only [modbus_read_holding_registers, if_neg hfd, hsend, hin, ne_eq,
          not_true_eq_false, if_false, if_pos hneg]
        exact connection_error_ne_success
      | some bytes =>
        rw [read_after_recv g t start_addr num_registers bytes (not_lt.mp hfd) hsend hin]
        split_ifs with h1 h2 h3 h4
        · exact invalid_response_ne_success
        · exact invalid_response_ne_success
        · exact invalid_response_ne_success
        · exact invalid_response_ne_success
        · show (decodeRegisters _ num_registers 0 []).1 ≠ Status.returned MODBUS_SUCCESS
          rw [decodeRegisters_out_of_bounds _ num_registers 0 [] (by omega) (by omega)]
          exact Status.noConfusion
    · simp only [modbus_read_holding_registers, if_neg hfd, ne_eq, hsend, not_false_eq_true,
        if_true]
      exact connection_error_ne_success

set_option maxRecDepth 100000 in
/-- C1 at 124 registers. The well-formed response to a read of 124 registers
has 257 bytes; `recv` stores 256 of them; all four checks pass; the loop stores
the first 123 values and then reads `response[256]`, outside the array. The
call does not return success with the 124 values. -/
theorem read_124_registers_leaves_response_array :
    (wellFormedResponse 1 (List.range 124)).length = 9 + 2 * 124 ∧
    recvCount (answering (wellFormedResponse 1 (List.range 124))).incoming READ_RESPONSE_SIZE
      = 256 ∧
    (modbus_read_holding_registers (connected 1)
        (answering (wellFormedResponse 1 (List.range 124))) 0 124).status
      = Status.outOfBounds 256 ∧
    (modbus_read_holding_registers (connected 1)
        (answering (wellFormedResponse 1 (List.range 124))) 0 124).data
      = List.range 123 := by
  decide

/-! ## Order of the checks (claim C4) -/

set_option maxRecDepth 100000 in
/-- C4 at 125 registers. A response with the transaction id sent, function
code 0x03 and byte count 250 = 2 * 125 passes checks (a) to (d), and step (e)
does not return success with 125 values: the loop reads `response[256]`. -/
theorem read_125_registers_passes_checks_then_leaves_array :
    9 ≤ recvCount (answering (wellFormedResponse 7 (List.replicate 125 0x0102))).incoming
      READ_RESPONSE_SIZE ∧
    response_transaction_id
      (recvBuffer (answering (wellFormedResponse 7 (List.replicate 125 0x0102))).incoming
        READ_RESPONSE_SIZE (answering (wellFormedResponse 7 (List.replicate 125 0x0102))).stale)
      = (connected 7).transaction_id ∧
    recvBuffer (answering (wellFormedResponse 7 (List.replicate 125 0x0102))).incoming
      READ_RESPONSE_SIZE (answering (wellFormedResponse 7 (List.replicate 125 0x0102))).stale 7
      &&& 0x80 = 0 ∧
    recvBuffer (answering (wellFormedResponse 7 (List.replicate 125 0x0102))).incoming
      READ_RESPONSE_SIZE (answering (wellFormedResponse 7 (List.replicate 125 0x0102))).stale 8
      = 125 * 2 ∧
    (modbus_read_holding_registers (connected 7)
        (answering (wellFormedResponse 7 (List.replicate 125 0x0102))) 0 125).status
      = Status.outOfBounds 256 := by
  decide

/-! ## Transaction id mismatch (claim C5) -/

/-- C5 as stated fails: an 8-byte response whose header carries transaction
id 2 answers a request sent with id 1, and the read reports the invalid
length, not the transaction mismatch. -/
theorem short_response_with_other_transaction_id :
    response_transaction_id
      (recvBuffer (answering [0x00, 0x02, 0x00, 0x00, 0x00, 0x03, 0xFF, 0x03]).incoming
        READ_RESPONSE_SIZE (answering [0x00, 0x02, 0x00, 0x00, 0x00, 0x03, 0xFF, 0x03]).stale)
      ≠ (connected 1).transaction_id ∧
    (modbus_read_holding_registers (connected 1)
        (answering [0x00, 0x02, 0x00, 0x00, 0x00, 0x03, 0xFF, 0x03]) 0 10).log
      = [Diag.invalidLength 8] ∧
    (modbus_read_holding_registers (connected 1)
        (answering [0x00, 0x02, 0x00, 0x00, 0x00, 0x03, 0xFF, 0x03]) 0 10).log
      ≠ [Diag.transactionMismatch] := by
  decide

/-- C5 amended. A response whose header transaction id differs from the one
sent never gives success and stores nothing: the read returns -2. When at
least 9 bytes were received the line printed is the transaction mismatch;
with fewer bytes it is the invalid length. -/
theorem read_transaction_mismatch (g : Globals) (t : Transport) (start_addr num_registers : Nat)
    (bytes : List Nat) (hconn : 0 ≤ g.sockfd) (hsend : t.sendResult = 12)
    (hin : t.incoming = some bytes)
    (htid : response_transaction_id (recvBuffer t.incoming READ_RESPONSE_SIZE t.stale)
      ≠ g.transaction_id) :
    (modbus_read_holding_registers g t start_addr num_registers).status
      = Status.returned MODBUS_ERROR_INVALID_RESPONSE ∧
    (modbus_read_holding_registers g t start_addr num_registers).status
      ≠ Status.returned MODBUS_SUCCESS ∧
    (modbus_read_holding_registers g t start_addr num_registers).data = [] ∧
    (9 ≤ (bytes.take READ_RESPONSE_SIZE).length →
      (modbus_read_holding_registers g t start_addr num_registers).log
        = [Diag.transactionMismatch]) ∧
    ((bytes.take READ_RESPONSE_SIZE).length < 9 →
      (modbus_read_holding_registers g t start_addr num_registers).log
        = [Diag.invalidLength ((bytes.take READ_RESPONSE_SIZE).length : Int)]) := by
  have hv := read_validation_order g t start_addr num_registers bytes hconn hsend hin
  by_cases h9 : (bytes.take READ_RESPONSE_SIZE).length < 9
  · obtain ⟨h1, h2, h3⟩ := hv.1 h9
    refine ⟨h1, ?_, h3, fun h => absurd h9 (not_lt.mpr h), fun _ => h2⟩
    rw [h1]
    exact invalid_response_ne_success
  · obtain ⟨h1, h2, h3⟩ := hv.2.1 (not_lt.mp h9) htid
    refine ⟨h1, ?_, h3, fun _ => h2, fun h => absurd h h9⟩
    rw [h1]
    exact invalid_response_ne_success

/-- Witness of C5 amended: a full 29-byte response to a read of 10 registers,
sent with transaction id 1 and answered with id 2. -/
theorem read_transaction_mismatch_witness :
    (modbus_read_holding_registers (connected 1)
        (answering (wellFormedResponse 2 [2, 1, 1, 7, 955, 65036, 65036, 3, 25939, 61696]))
        0 10).status = Status.returned MODBUS_ERROR_INVALID_RESPONSE ∧
    (modbus_read_holding_registers (connected 1)
        (answering (wellFormedResponse 2 [2, 1, 1, 7, 955, 65036, 65036, 3, 25939, 61696]))
        0 10).log = [Diag.transactionMismatch] :=
  have h := read_transaction_mismatch (connected 1)
    (answering (wellFormedResponse 2 [2, 1, 1, 7, 955, 65036, 65036, 3, 25939, 61696])) 0 10
    (wellFormedResponse 2 [2, 1, 1, 7, 955, 65036, 65036, 3, 25939, 61696])
    (by decide) rfl rfl (by decide)
  ⟨h.1, h.2.2.2.1 (by decide)⟩

/-! ## Exception responses (claim C6) -/

/-- C6 as stated fails: an 8-byte response with the transaction id sent and
function byte 0x83 (bit 0x80 set) is reported as invalid length, not as a
Modbus exception. -/
theorem short_exception_response_is_invalid_length :
    recvBuffer (answering [0x00, 0x01, 0x00, 0x00, 0x00, 0x02, 0xFF, 0x83]).incoming
      READ_RESPONSE_SIZE (answering [0x00, 0x01, 0x00, 0x00, 0x00, 0x02, 0xFF, 0x83]).stale 7
      &&& 0x80 ≠ 0 ∧
    (modbus_read_holding_registers (connected 1)
        (answering [0x00, 0x01, 0x00, 0x00, 0x00, 0x02, 0xFF, 0x83]) 0 10).log
      = [Diag.invalidLength 8] ∧
    (modbus_read_holding_registers (connected 1)
        (answering [0x00, 0x01, 0x00, 0x00, 0x00, 0x02, 0xFF, 0x83]) 0 10).log
      ≠ [Diag.modbusException
          (recvBuffer (answering [0x00, 0x01, 0x00, 0x00, 0x00, 0x02, 0xFF, 0x83]).incoming
            READ_RESPONSE_SIZE
            (answering [0x00, 0x01, 0x00, 0x00, 0x00, 0x02, 0xFF, 0x83]).stale 8)] := by
  decide

/-- C6 amended. A response of at least 9 bytes that carries the transaction
id sent and whose function byte (offset 7) has bit 0x80 set is reported as a
Modbus exception whose code is the byte at offset 8, for every number of
registers asked for (so whatever the byte count field says) and however many
bytes beyond 9 arrived; the read returns -2 and stores nothing. -/
theorem read_exception_response (g : Globals) (t : Transport) (start_addr num_registers : Nat)
    (bytes : List Nat) (hconn : 0 ≤ g.sockfd) (hsend : t.sendResult = 12)
    (hin : t.incoming = some bytes)
    (h9 : 9 ≤ (bytes.take READ_RESPONSE_SIZE).length)
    (htid : response_transaction_id (recvBuffer t.incoming READ_RESPONSE_SIZE t.stale)
      = g.transaction_id)
    (hfc : recvBuffer t.incoming READ_RESPONSE_SIZE t.stale 7 &&& 0x80 ≠ 0) :
    (modbus_read_holding_registers g t start_addr num_registers).status
      = Status.returned MODBUS_ERROR_INVALID_RESPONSE ∧
    (modbus_read_holding_registers g t start_addr num_registers).log
      = [Diag.modbusException (recvBuffer t.incoming READ_RESPONSE_SIZE t.stale 8)] ∧
    (modbus_read_holding_registers g t start_addr num_registers).data = [] :=
  (read_validation_order g t start_addr num_registers bytes hconn hsend hin).2.2.1 h9 htid hfc

/-- Witness of C6 amended: the 9-byte exception response `83 02` to a read of
10 registers sent with transaction id 1. -/
theorem read_exception_response_witness :
    (modbus_read_holding_registers (connected 1)
        (answering [0x00, 0x01, 0x00, 0x00, 0x00, 0x03, 0xFF, 0x83, 0x02]) 0 10).status
      = Status.returned MODBUS_ERROR_INVALID_RESPONSE ∧
    (modbus_read_holding_registers (connected 1)
        (answering [0x00, 0x01, 0x00, 0x00, 0x00, 0x03, 0xFF, 0x83, 0x02]) 0 10).log
      = [Diag.modbusException 0x02] :=
  have h := read_exception_response (connected 1)
    (answering [0x00, 0x01, 0x00, 0x00, 0x00, 0x03, 0xFF, 0x83, 0x02]) 0 10
    [0x00, 0x01, 0x00, 0x00, 0x00, 0x03, 0xFF, 0x83, 0x02]
    (by decide) rfl rfl (by decide) (by decide) (by decide)
  ⟨h.1, h.2.1⟩

/-! ## Byte count (claim C7) -/

/-- C7 as stated fails: the 9-byte exception response `83 02` to a read of 10
registers has byte 2 at offset 8, different from 20, and the read reports a
Modbus exception, not the byte count. -/
theorem exception_response_with_other_byte_count :
    recvBuffer (answering [0x00, 0x01, 0x00, 0x00, 0x00, 0x03, 0xFF, 0x83, 0x02]).incoming
      READ_RESPONSE_SIZE
      (answering [0x00, 0x01, 0x00, 0x00, 0x00, 0x03, 0xFF, 0x83, 0x02]).stale 8 ≠ 10 * 2 ∧
    (modbus_read_holding_registers (connected 1)
        (answering [0x00, 0x01, 0x00, 0x00, 0x00, 0x03, 0xFF, 0x83, 0x02]) 0 10).log
      = [Diag.modbusException 0x02] ∧
    (modbus_read_holding_registers (connected 1)
        (answering [0x00, 0x01, 0x00, 0x00, 0x00, 0x03, 0xFF, 0x83, 0x02]) 0 10).log
      ≠ [Diag.invalidByteCount 0x02] := by
  decide

/-- C7 amended. A response whose byte at offset 8 differs from
`num_registers * 2` never gives success: the read returns -2 and stores
nothing, however many bytes arrived. When the three earlier checks pass (at
least 9 bytes, the transaction id sent, bit 0x80 of the function byte clear)
the line printed is the byte count one; when one of them fails, the line is
that of the first failing check: invalid length, transaction mismatch or
Modbus exception. -/
theorem read_byte_count_mismatch (g : Globals) (t : Transport) (start_addr num_registers : Nat)
    (bytes : List Nat) (hconn : 0 ≤ g.sockfd) (hsend : t.sendResult = 12)
    (hin : t.incoming = some bytes)
    (hbc : recvBuffer t.incoming READ_RESPONSE_SIZE t.stale 8 ≠ num_registers * 2) :
    (modbus_read_holding_registers g t start_addr num_registers).status
      = Status.returned MODBUS_ERROR_INVALID_RESPONSE ∧
    (modbus_read_holding_registers g t start_addr num_registers).status
      ≠ Status.returned MODBUS_SUCCESS ∧
    (modbus_read_holding_registers g t start_addr num_registers).data = [] ∧
    (9 ≤ (bytes.take READ_RESPONSE_SIZE).length →
      response_transaction_id (recvBuffer t.incoming READ_RESPONSE_SIZE t.stale)
        = g.transaction_id →
      recvBuffer t.incoming READ_RESPONSE_SIZE t.stale 7 &&& 0x80 = 0 →
      (modbus_read_holding_registers g t start_addr num_registers).log
        = [Diag.invalidByteCount (recvBuffer t.incoming READ_RESPONSE_SIZE t.stale 8)]) ∧
    ((bytes.take READ_RESPONSE_SIZE).length < 9 →
      (modbus_read_holding_registers g t start_addr num_registers).log
        = [Diag.invalidLength ((bytes.take READ_RESPONSE_SIZE).length : Int)]) ∧
    (9 ≤ (bytes.take READ_RESPONSE_SIZE).length →
      response_transaction_id (recvBuffer t.incoming READ_RESPONSE_SIZE t.stale)
        ≠ g.transaction_id →
      (modbus_read_holding_registers g t start_addr num_registers).log
        = [Diag.transactionMismatch]) ∧
    (9 ≤ (bytes.take READ_RESPONSE_SIZE).length →
      response_transaction_id (recvBuffer t.incoming READ_RESPONSE_SIZE t.stale)
        = g.transaction_id →
      recvBuffer t.incoming READ_RESPONSE_SIZE t.stale 7 &&& 0x80 ≠ 0 →
      (modbus_read_holding_registers g t start_addr num_registers).log
        = [Diag.modbusException (recvBuffer t.incoming READ_RESPONSE_SIZE t.stale 8)]) := by
  have hv := read_validation_order g t start_addr num_registers bytes hconn hsend hin
  have hstatus : (modbus_read_holding_registers g t start_addr num_registers).status
      = Status.returned MODBUS_ERROR_INVALID_RESPONSE ∧
      (modbus_read_holding_registers g t start_addr num_registers).data = [] := by
    by_cases h9 : (bytes.take READ_RESPONSE_SIZE).length < 9
    · exact ⟨(hv.1 h9).1, (hv.1 h9).2.2⟩
    · have h9 := not_lt.mp h9
      by_cases htid : response_transaction_id (recvBuffer t.incoming READ_RESPONSE_SIZE t.stale)
          = g.transaction_id
      · by_cases hfc : recvBuffer t.incoming READ_RESPONSE_SIZE t.stale 7 &&& 0x80 = 0
        · exact ⟨(hv.2.2.2.1 h9 htid hfc hbc).1, (hv.2.2.2.1 h9 htid hfc hbc).2.2⟩
        · exact ⟨(hv.2.2.1 h9 htid hfc).1, (hv.2.2.1 h9 htid hfc).2.2⟩
      · exact ⟨(hv.2.1 h9 htid).1, (hv.2.1 h9 htid).2.2⟩
  refine ⟨hstatus.1, ?_, hstatus.2, fun h9 htid hfc => (hv.2.2.2.1 h9 htid hfc hbc).2.1,
    fun h9 => (hv.1 h9).2.1, fun h9 htid => (hv.2.1 h9 htid).2.1,
    fun h9 htid hfc => (hv.2.2.1 h9 htid hfc).2.1⟩
  rw [hstatus.1]
  exact invalid_response_ne_success

/-- Witness of C7 amended: a read of 10 registers answered with byte count 18
and 20 data bytes present (29 bytes in all). -/
theorem read_byte_count_mismatch_witness :
    (modbus_read_holding_registers (connected 1)
        (answering ([0x00, 0x01, 0x00, 0x00, 0x00, 0x17, 0xFF, 0x03, 18] ++ List.replicate 20 0))
        0 10).status = Status.returned MODBUS_ERROR_INVALID_RESPONSE ∧
    (modbus_read_holding_registers (connected 1)
        (answering ([0x00, 0x01, 0x00, 0x00, 0x00, 0x17, 0xFF, 0x03, 18] ++ List.replicate 20 0))
        0 10).log = [Diag.invalidByteCount 18] :=
  have h := read_byte_count_mismatch (connected 1)
    (answering ([0x00, 0x01, 0x00, 0x00, 0x00, 0x17, 0xFF, 0x03, 18] ++ List.replicate 20 0)) 0 10
    ([0x00, 0x01, 0x00, 0x00, 0x00, 0x17, 0xFF, 0x03, 18] ++ List.replicate 20 0)
    (by decide) rfl rfl (by decide)
  ⟨h.1, h.2.2.2.1 (by decide) (by decide) (by decide)⟩

/-! ## A failing `recv` (claim C9) -/

/-- A read on a connected session whose request was sent and whose `recv`
fails returns `MODBUS_ERROR_CONNECTION`. -/
theorem read_recv_failure (g : Globals) (t : Transport) (start_addr num_registers : Nat)
    (hconn : 0 ≤ g.sockfd) (hsend : t.sendResult = 12) (hin : t.incoming = none) :
    (modbus_read_holding_registers g t start_addr num_registers).status
      = Status.returned MODBUS_ERROR_CONNECTION := by
  have hfd : ¬ g.sockfd < 0 := not_lt.mpr hconn
  have hneg : recvCount none READ_RESPONSE_SIZE < 0 := by decide
  simp only [modbus_read_holding_registers, if_neg hfd, hsend, hin, ne_eq, not_true_eq_false,
    if_false, if_pos hneg]

/-- A write on a connected session whose request was sent and whose `recv`
fails returns `MODBUS_ERROR_INVALID_RESPONSE`: line 389 tests `received < 12`
only. -/
theorem write_recv_failure (g : Globals) (t : Transport) (address value : Nat)
    (hconn : 0 ≤ g.sockfd) (hsend : t.sendResult = 12) (hin : t.incoming = none) :
    (modbus_write_single_register g t address value).status
      = Status.returned MODBUS_ERROR_INVALID_RESPONSE := by
  have hfd : ¬ g.sockfd < 0 := not_lt.mpr hconn
  have hneg : recvCount none WRITE_RESPONSE_SIZE < 12 := by decide
  simp only [modbus_write_single_register, if_neg hfd, hsend, hin, ne_eq, not_true_eq_false,
    if_false, if_pos hneg]

/-- C9 at a failing `recv`. On a connected session, with the request sent in
full and `recv` returning -1, the read returns `MODBUS_ERROR_CONNECTION` (-1)
and the write returns `MODBUS_ERROR_INVALID_RESPONSE` (-2), which is not the
connection error. -/
theorem write_reports_recv_failure_as_invalid_response :
    recvCount recvFailing.incoming WRITE_RESPONSE_SIZE = -1 ∧
    (modbus_read_holding_registers (connected 1) recvFailing 0 10).status
      = Status.returned MODBUS_ERROR_CONNECTION ∧
    (modbus_write_single_register (connected 1) recvFailing 0 1).status
      = Status.returned MODBUS_ERROR_INVALID_RESPONSE ∧
    (modbus_write_single_register (connected 1) recvFailing 0 1).status
      ≠ Status.returned MODBUS_ERROR_CONNECTION := by
  decide

/-! ## The write response (claim C10) -/

/-- C10. On a connected session, once `send` took the 12 bytes of the write
request, `modbus_write_single_register` returns success exactly when `recv`
stored 12 bytes, that is when the peer delivered at least 12; two transports
whose `recv` returns the same count give the same outcome, whatever the bytes
are. -/
theorem write_success_iff_twelve_bytes (g : Globals) (t : Transport) (address value : Nat)
    (hconn : 0 ≤ g.sockfd) (hsend : t.sendResult = 12) :
    ((modbus_write_single_register g t address value).status = Status.returned MODBUS_SUCCESS ↔
      12 ≤ recvCount t.incoming WRITE_RESPONSE_SIZE) ∧
    (∀ bytes : List Nat, t.incoming = some bytes →
      ((modbus_write_single_register g t address value).status = Status.returned MODBUS_SUCCESS ↔
        12 ≤ bytes.length)) ∧
    (∀ u : Transport, u.sendResult = 12 →
      recvCount u.incoming WRITE_RESPONSE_SIZE = recvCount t.incoming WRITE_RESPONSE_SIZE →
      modbus_write_single_register g u address value
        = modbus_write_single_register g t address value) := by
  have hfd : ¬ g.sockfd < 0 := not_lt.mpr hconn
  have hiff : (modbus_write_single_register g t address value).status
      = Status.returned MODBUS_SUCCESS ↔ 12 ≤ recvCount t.incoming WRITE_RESPONSE_SIZE := by
    simp only [modbus_write_single_register, if_neg hfd, hsend, ne_eq, not_true_eq_false,
      if_false]
    by_cases h : recvCount t.incoming WRITE_RESPONSE_SIZE < 12
    · simp only [if_pos h]
      constructor
      · intro hs
        exact absurd hs invalid_response_ne_success
      · intro h12
        omega
    · simp only [if_neg h, true_iff]
      omega
  refine ⟨hiff, ?_, ?_⟩
  · intro bytes hin
    rw [hiff, hin]
    simp only [recvCount, List.length_take, WRITE_RESPONSE_SIZE]
    omega
  · intro u hu hcount
    simp only [modbus_write_single_register, if_neg hfd, hsend, hu, hcount]

/-- Witness of C10: 12 bytes that echo nothing of the request (foreign
transaction id, function code 0x03) are accepted as the answer to a write. -/
theorem write_success_iff_twelve_bytes_witness :
    (modbus_write_single_register (connected 1)
        (answering [0xAB, 0xCD, 0, 0, 0, 6, 0xFF, 0x03, 9, 9, 9, 9]) 5 1).status
      = Status.returned MODBUS_SUCCESS :=
  (write_success_iff_twelve_bytes (connected 1)
    (answering [0xAB, 0xCD, 0, 0, 0, 6, 0xFF, 0x03, 9, 9, 9, 9]) 5 1
    (by decide) rfl).1.mpr (by decide)

/-! ## Telemetry mapping (claim C14) -/

set_option maxRecDepth 100000 in
/-- C14. `parse_drone_data` copies the ten registers to the ten fields in
order and unchanged; the ten register values of Scenario A give
`drone_count = 2`, `threat_level = 1`, `fire_authorized = 1`,
`confidence = 955`, `zone_code = 3`, also when they come out of a read
answered by the well-formed response that carries them. -/
theorem parse_drone_data_is_positional :
    (∀ r0 r1 r2 r3 r4 r5 r6 r7 r8 r9 : Nat,
      parse_drone_data [r0, r1, r2, r3, r4, r5, r6, r7, r8, r9] =
        { drone_count := r0, threat_level := r1, fire_authorized := r2, detection_id := r3,
          confidence := r4, position_x := r5, position_y := r6, zone_code := r7,
          timestamp_high := r8, timestamp_low := r9 }) ∧
    (parse_drone_data scenarioA).drone_count = 2 ∧
    (parse_drone_data scenarioA).threat_level = 1 ∧
    (parse_drone_data scenarioA).fire_authorized = 1 ∧
    (parse_drone_data scenarioA).confidence = 955 ∧
    (parse_drone_data scenarioA).zone_code = 3 ∧
    parse_drone_data
      (modbus_read_holding_registers (connected 1)
        (answering (wellFormedResponse 1 scenarioA)) 0 10).data
      = parse_drone_data scenarioA := by
  refine ⟨fun _ _ _ _ _ _ _ _ _ _ => rfl, rfl, rfl, rfl, rfl, rfl, ?_⟩
  decide

/-! ## Disconnecting (claim C16) -/

/-- C16. From every state `modbus_disconnect` leaves the session disconnected
(`sockfd < 0`) and the counter untouched; a second call right after changes
nothing and closes nothing, so the two calls together close at most one
socket: the one that was open, if any. -/
theorem modbus_disconnect_idempotent (g : Globals) :
    (modbus_disconnect g).1.sockfd < 0 ∧
    (modbus_disconnect g).1.transaction_id = g.transaction_id ∧
    modbus_disconnect (modbus_disconnect g).1 = ((modbus_disconnect g).1, []) ∧
    ((modbus_disconnect g).2 ++ (modbus_disconnect (modbus_disconnect g).1).2).length ≤ 1 ∧
    (modbus_disconnect g).2 = (if 0 ≤ g.sockfd then [Event.close g.sockfd] else []) := by
  by_cases h : g.sockfd ≥ 0
  · have hd : modbus_disconnect g = ({ g with sockfd := -1 }, [Event.close g.sockfd]) := by
      simp only [modbus_disconnect, if_pos h]
    have hneg : ¬ ((-1 : Int) ≥ 0) := by decide
    have hd2 : modbus_disconnect { g with sockfd := -1 } = ({ g with sockfd := -1 }, []) := by
      simp only [modbus_disconnect, if_neg hneg]
    have h0 : 0 ≤ g.sockfd := h
    rw [hd]
    simp only [hd2, if_pos h0, List.append_nil, List.length_singleton, le_refl, and_true]
    decide
  · have hd : modbus_disconnect g = (g, []) := by
      simp only [modbus_disconnect, if_neg h]
    have h0 : ¬ 0 ≤ g.sockfd := h
    rw [hd]
    simp only [hd, if_neg h0, List.append_nil, List.length_nil, Nat.zero_le, and_true, true_and]
    exact not_le.mp h0

theorem modbus_disconnect_leaves_disconnected (g : Globals) :
    (modbus_disconnect g).1.sockfd < 0 := by
  by_cases h : g.sockfd ≥ 0
  · simp only [modbus_disconnect, if_pos h]
    decide
  · simp only [modbus_disconnect, if_neg h]
    exact not_le.mp h

/-! ## Disconnected sessions and the counter (claim C19) -/

/-- C19. With `sockfd < 0` both functions return `MODBUS_ERROR_CONNECTION`
at once: no request is handed to `send`, the globals (so the counter) are the
same, nothing is printed and nothing is stored to `data`. With `sockfd ≥ 0`
both functions leave the counter at `(counter + 1) mod 65536`, that is one
more whenever the counter is below 65535, whatever `send` and `recv` do, and
leave `sockfd` as it was. -/
theorem disconnected_calls_and_counter (g : Globals) (t : Transport) (a b : Nat) :
    (g.sockfd < 0 →
      modbus_read_holding_registers g t a b =
        { status := Status.returned MODBUS_ERROR_CONNECTION, globals := g, request := none,
          log := [], data := [] } ∧
      modbus_write_single_register g t a b =
        { status := Status.returned MODBUS_ERROR_CONNECTION, globals := g, request := none,
          log := [], data := [] }) ∧
    (0 ≤ g.sockfd →
      (modbus_read_holding_registers g t a b).globals
        = { sockfd := g.sockfd, transaction_id := (g.transaction_id + 1) % 65536 } ∧
      (modbus_write_single_register g t a b).globals
        = { sockfd := g.sockfd, transaction_id := (g.transaction_id + 1) % 65536 } ∧
      (g.transaction_id < 65535 →
        (modbus_read_holding_registers g t a b).globals.transaction_id
          = g.transaction_id + 1 ∧
        (modbus_write_single_register g t a b).globals.transaction_id
          = g.transaction_id + 1)) := by
  constructor
  · intro h
    simp only [modbus_read_holding_registers, modbus_write_single_register, if_pos h, and_self]
  · intro h
    have hr := read_globals_of_connected g t a b h
    have hw := write_globals_of_connected g t a b h
    refine ⟨hr, hw, ?_⟩
    intro hlt
    rw [hr, hw]
    exact ⟨Nat.mod_eq_of_lt (by omega), Nat.mod_eq_of_lt (by omega)⟩

/-- Witness of C19: a disconnected session with counter 7 keeps counter 7 and
sends nothing; a connected one with counter 7 has counter 8 after a read
whose `recv` fails and after a write answered by nothing. -/
theorem disconnected_calls_and_counter_witness :
    (modbus_read_holding_registers { sockfd := -1, transaction_id := 7 } recvFailing 0 10).request
      = none ∧
    (modbus_read_holding_registers { sockfd := -1, transaction_id := 7 } recvFailing 0 10).globals
      = { sockfd := -1, transaction_id := 7 } ∧
    (modbus_read_holding_registers (connected 7) recvFailing 0 10).globals.transaction_id = 8 ∧
    (modbus_write_single_register (connected 7) recvFailing 0 10).globals.transaction_id = 8 :=
  have h := disconnected_calls_and_counter { sockfd := -1, transaction_id := 7 } recvFailing 0 10
  have k := disconnected_calls_and_counter (connected 7) recvFailing 0 10
  ⟨by rw [(h.1 (by decide)).1], by rw [(h.1 (by decide)).1],
   ((k.2 (by decide)).2.2 (by decide)).1, ((k.2 (by decide)).2.2 (by decide)).2⟩

/-! ## The three ways a read can end -/

/-- Every read ends in one of three ways: with the connection error and
nothing stored, with the invalid response error and nothing stored, or, all
four checks passed, with what the decoding loop gives. -/
theorem read_error_or_decoded (g : Globals) (t : Transport) (start_addr num_registers : Nat) :
    ((modbus_read_holding_registers g t start_addr num_registers).status
        = Status.returned MODBUS_ERROR_CONNECTION ∧
      (modbus_read_holding_registers g t start_addr num_registers).data = []) ∨
    ((modbus_read_holding_registers g t start_addr num_registers).status
        = Status.returned MODBUS_ERROR_INVALID_RESPONSE ∧
      (modbus_read_holding_registers g t start_addr num_registers).data = []) ∨
    (0 ≤ g.sockfd ∧ t.sendResult = 12 ∧
      9 ≤ recvCount t.incoming READ_RESPONSE_SIZE ∧
      response_transaction_id (recvBuffer t.incoming READ_RESPONSE_SIZE t.stale)
        = g.transaction_id ∧
      recvBuffer t.incoming READ_RESPONSE_SIZE t.stale 7 &&& 0x80 = 0 ∧
      recvBuffer t.incoming READ_RESPONSE_SIZE t.stale 8 = num_registers * 2 ∧
      (modbus_read_holding_registers g t start_addr num_registers).status
        = (decodeRegisters (recvBuffer t.incoming READ_RESPONSE_SIZE t.stale)
            num_registers 0 []).1 ∧
      (modbus_read_holding_registers g t start_addr num_registers).data
        = (decodeRegisters (recvBuffer t.incoming READ_RESPONSE_SIZE t.stale)
            num_registers 0 []).2 ∧
      (modbus_read_holding_registers g t start_addr num_registers).log = []) := by
  by_cases hfd : g.sockfd < 0
  · left
    simp only [modbus_read_holding_registers, if_pos hfd, and_self]
  · by_cases hsend : t.sendResult = 12
    · cases hin : t.incoming with
      | none =>
        left
        have hneg : recvCount none READ_RESPONSE_SIZE < 0 := by decide
        simp only [modbus_read_holding_registers, if_neg hfd, hsend, hin, ne_eq,
          not_true_eq_false, if_false, if_pos hneg, and_self]
      | some bytes =>
        rw [read_after_recv g t start_addr num_registers bytes (not_lt.mp hfd) hsend hin]
        split_ifs with h1 h2 h3 h4
        · right; left; exact ⟨rfl, rfl⟩
        · right; left; exact ⟨rfl, rfl⟩
        · right; left; exact ⟨rfl, rfl⟩
        · right; left; exact ⟨rfl, rfl⟩
        · right; right
          have h9 : (9 : Int) ≤ recvCount (some bytes) READ_RESPONSE_SIZE := by
            simp only [recvCount]
            omega
          exact ⟨not_lt.mp hfd, hsend, h9, not_not.mp h2, not_not.mp h3, not_not.mp h4,
            rfl, rfl, rfl⟩
    · left
      simp only [modbus_read_holding_registers, if_neg hfd, ne_eq, hsend, not_false_eq_true,
        if_true, and_self]

theorem decodeRegisters_data_length (response : Nat → Nat) (n : Nat) (h : 9 + 2 * n ≤ 256) :
    decodeRegisters response n 0 [] =
      (Status.returned MODBUS_SUCCESS,
       (List.range n).map fun j =>
         ((response (9 + j * 2) <<< 8) ||| response (10 + j * 2)) % 65536) := by
  rw [decodeRegisters_in_bounds response n 0 [] (by omega)]
  simp only [List.nil_append, Nat.zero_add]

/-- A read of at most 123 registers always returns (no access outside the
array), and when it returns success it has stored one value per register. -/
theorem read_in_bounds (g : Globals) (t : Transport) (start_addr num_registers : Nat)
    (h : 9 + 2 * num_registers ≤ 256) :
    (∃ code : Int,
      (modbus_read_holding_registers g t start_addr num_registers).status
        = Status.returned code) ∧
    ((modbus_read_holding_registers g t start_addr num_registers).status
        = Status.returned MODBUS_SUCCESS →
      (modbus_read_holding_registers g t start_addr num_registers).data.length
        = num_registers ∧
      (modbus_read_holding_registers g t start_addr num_registers).log = []) ∧
    ((modbus_read_holding_registers g t start_addr num_registers).status
        ≠ Status.returned MODBUS_SUCCESS →
      (modbus_read_holding_registers g t start_addr num_registers).data = []) := by
  rcases read_error_or_decoded g t start_addr num_registers with
    ⟨hs, hd⟩ | ⟨hs, hd⟩ | ⟨_, _, _, _, _, _, hs, hd, hl⟩
  · refine ⟨⟨_, hs⟩, ?_, fun _ => hd⟩
    intro h0
    rw [hs] at h0
    exact absurd h0 connection_error_ne_success
  · refine ⟨⟨_, hs⟩, ?_, fun _ => hd⟩
    intro h0
    rw [hs] at h0
    exact absurd h0 invalid_response_ne_success
  · rw [decodeRegisters_data_length _ num_registers h] at hs hd
    refine ⟨⟨_, hs⟩, ?_, fun hne => absurd hs hne⟩
    intro _
    rw [hd]
    exact ⟨by simp only [List.length_map, List.length_range], hl⟩

/-! ## Bytes decoded and bytes received (claim C17) -/

/-- C17 at a short receive. A read of 10 registers is answered by 9 bytes
only (header, function code 0x03, byte count 20). `received` is 9, less than
the 29 bytes the decoding needs; the four checks pass and the read returns
success. The 10 values stored come from cells 9 to 28 of the array, which
`recv` did not write: they are whatever the memory held (0xAAAA with cells
of 0xAA, 0 with cells of 0). -/
theorem read_succeeds_on_nine_received_bytes :
    recvCount (answering [0x00, 0x01, 0x00, 0x00, 0x00, 0x17, 0xFF, 0x03, 20]).incoming
      READ_RESPONSE_SIZE = 9 ∧
    (modbus_read_holding_registers (connected 1)
        (answering [0x00, 0x01, 0x00, 0x00, 0x00, 0x17, 0xFF, 0x03, 20]) 0 10).status
      = Status.returned MODBUS_SUCCESS ∧
    (modbus_read_holding_registers (connected 1)
        (answering [0x00, 0x01, 0x00, 0x00, 0x00, 0x17, 0xFF, 0x03, 20]) 0 10).data
      = List.replicate 10 0xAAAA ∧
    (modbus_read_holding_registers (connected 1)
        { sendResult := 12,
          incoming := some [0x00, 0x01, 0x00, 0x00, 0x00, 0x17, 0xFF, 0x03, 20],
          stale := fun _ => 0 } 0 10).data
      = List.replicate 10 0 := by
  decide

/-! ## Counts of 128 and more (claim C18) -/

theorem recvBuffer_lt (incoming : Option (List Nat)) (size : Nat) (stale : Nat → Nat) (i : Nat) :
    recvBuffer incoming size stale i < 256 := by
  cases incoming with
  | none => exact Nat.mod_lt _ (by decide)
  | some bytes => exact Nat.mod_lt _ (by decide)

/-- C18. For 128 registers or more the byte at offset 8 of the array, below
256, differs from `num_registers * 2`, so no read returns success, whatever
the session and the socket do: the read returns one of the two error codes
and stores nothing. Nothing else stops such a request: on a connected session
it is handed to `send`. -/
theorem read_of_128_or_more_never_succeeds (g : Globals) (t : Transport)
    (start_addr num_registers : Nat) (h : 128 ≤ num_registers) :
    recvBuffer t.incoming READ_RESPONSE_SIZE t.stale 8 ≠ num_registers * 2 ∧
    (modbus_read_holding_registers g t start_addr num_registers).status
      ≠ Status.returned MODBUS_SUCCESS ∧
    ((modbus_read_holding_registers g t start_addr num_registers).status
        = Status.returned MODBUS_ERROR_CONNECTION ∨
      (modbus_read_holding_registers g t start_addr num_registers).status
        = Status.returned MODBUS_ERROR_INVALID_RESPONSE) ∧
    (modbus_read_holding_registers g t start_addr num_registers).data = [] ∧
    (0 ≤ g.sockfd →
      (modbus_read_holding_registers g t start_addr num_registers).request
        = some (readRequest g.transaction_id start_addr num_registers)) := by
  have hbc : recvBuffer t.incoming READ_RESPONSE_SIZE t.stale 8 ≠ num_registers * 2 := by
    have := recvBuffer_lt t.incoming READ_RESPONSE_SIZE t.stale 8
    omega
  refine ⟨hbc, ?_, ?_, ?_, read_request_of_connected g t start_addr num_registers⟩
  · rcases read_error_or_decoded g t start_addr num_registers with
      ⟨hs, _⟩ | ⟨hs, _⟩ | ⟨_, _, _, _, _, h8, _⟩
    · rw [hs]; exact connection_error_ne_success
    · rw [hs]; exact invalid_response_ne_success
    · exact absurd h8 hbc
  · rcases read_error_or_decoded g t start_addr num_registers with
      ⟨hs, _⟩ | ⟨hs, _⟩ | ⟨_, _, _, _, _, h8, _⟩
    · exact Or.inl hs
    · exact Or.inr hs
    · exact absurd h8 hbc
  · rcases read_error_or_decoded g t start_addr num_registers with
      ⟨_, hd⟩ | ⟨_, hd⟩ | ⟨_, _, _, _, _, h8, _⟩
    · exact hd
    · exact hd
    · exact absurd h8 hbc

/-- Witness of C18: 128 registers asked for, answered by a response that
passes the first three checks and carries byte count 0 (256 mod 256). -/
theorem read_of_128_or_more_never_succeeds_witness :
    (modbus_read_holding_registers (connected 1)
        (answering ([0x00, 0x01, 0x00, 0x00, 0x01, 0x03, 0xFF, 0x03, 0x00]
          ++ List.replicate 200 0)) 0 128).status
      ≠ Status.returned MODBUS_SUCCESS :=
  (read_of_128_or_more_never_succeeds (connected 1)
    (answering ([0x00, 0x01, 0x00, 0x00, 0x01, 0x03, 0xFF, 0x03, 0x00]
      ++ List.replicate 200 0)) 0 128 (by decide)).2.1

/-! ## The function code of a response (claim C20) -/

theorem recvBuffer_some (bytes : List Nat) (size : Nat) (stale : Nat → Nat) (i : Nat) :
    recvBuffer (some bytes) size stale i = ((bytes.take size)[i]?).getD (stale i) % 256 := by
  simp only [recvBuffer, List.getD_eq_getElem?_getD]

theorem recvBuffer_set_ne (bytes : List Nat) (size : Nat) (stale : Nat → Nat) (f i : Nat)
    (h : i ≠ 7) :
    recvBuffer (some (bytes.set 7 f)) size stale i = recvBuffer (some bytes) size stale i := by
  rw [recvBuffer_some, recvBuffer_some, List.set_take, List.getElem?_set_ne (Ne.symm h)]

theorem recvBuffer_set_self (bytes : List Nat) (size : Nat) (stale : Nat → Nat) (f : Nat) :
    recvBuffer (some (bytes.set 7 f)) size stale 7 =
      if 7 < (bytes.take size).length then f % 256 else recvBuffer (some bytes) size stale 7 := by
  rw [recvBuffer_some, recvBuffer_some, List.set_take, List.getElem?_set, if_pos rfl]
  by_cases h : 7 < (bytes.take size).length
  · simp only [if_pos h, Option.getD_some]
  · simp only [if_neg h, Option.getD_none, List.getElem?_eq_none (not_lt.mp h)]

/-- The decoding loop reads cells 9 and up only. -/
theorem decodeRegisters_congr (r1 r2 : Nat → Nat) (h : ∀ k, 9 ≤ k → r1 k = r2 k) :
    ∀ (n i : Nat) (stored : List Nat),
      decodeRegisters r1 n i stored = decodeRegisters r2 n i stored := by
  intro n
  induction n with
  | zero => intro i stored; rfl
  | succ n ih =>
    intro i stored
    rw [decodeRegisters, decodeRegisters, h (9 + i * 2) (by omega), h (10 + i * 2) (by omega),
      ih]

/-- C20. Take any response whose function byte has bit 0x80 clear and
replace that byte (offset 7) by any other value with bit 0x80 clear: the read
gives the same outcome (status, values stored, lines printed, globals), for
every session, start address and count. -/
theorem read_ignores_function_code (g : Globals) (t : Transport) (start_addr num_registers : Nat)
    (bytes : List Nat) (f : Nat) (hin : t.incoming = some bytes)
    (hclear : recvBuffer t.incoming READ_RESPONSE_SIZE t.stale 7 &&& 0x80 = 0)
    (hf : (f % 256) &&& 0x80 = 0) :
    modbus_read_holding_registers g
        { sendResult := t.sendResult, incoming := some (bytes.set 7 f), stale := t.stale }
        start_addr num_registers
      = modbus_read_holding_registers g t start_addr num_registers := by
  by_cases hfd : g.sockfd < 0
  · simp only [modbus_read_holding_registers, if_pos hfd]
  · by_cases hsend : t.sendResult = 12
    · rw [hin] at hclear
      have hlen : ((bytes.set 7 f).take READ_RESPONSE_SIZE).length
          = (bytes.take READ_RESPONSE_SIZE).length := by
        simp only [List.length_take, List.length_set]
      have hne : ∀ i, i ≠ 7 →
          recvBuffer (some (bytes.set 7 f)) READ_RESPONSE_SIZE t.stale i
            = recvBuffer (some bytes) READ_RESPONSE_SIZE t.stale i :=
        fun i hi => recvBuffer_set_ne bytes READ_RESPONSE_SIZE t.stale f i hi
      have h7 : recvBuffer (some (bytes.set 7 f)) READ_RESPONSE_SIZE t.stale 7 &&& 0x80 = 0 := by
        rw [recvBuffer_set_self]
        split_ifs
        · exact hf
        · exact hclear
      have htid : response_transaction_id
            (recvBuffer (some (bytes.set 7 f)) READ_RESPONSE_SIZE t.stale)
          = response_transaction_id (recvBuffer (some bytes) READ_RESPONSE_SIZE t.stale) := by
        simp only [response_transaction_id, hne 0 (by decide), hne 1 (by decide)]
      have hloop := decodeRegisters_congr
        (recvBuffer (some (bytes.set 7 f)) READ_RESPONSE_SIZE t.stale)
        (recvBuffer (some bytes) READ_RESPONSE_SIZE t.stale)
        (fun k hk => hne k (by omega)) num_registers 0 []
      rw [read_after_recv g t start_addr num_registers bytes (not_lt.mp hfd) hsend hin,
        read_after_recv g
          { sendResult := t.sendResult, incoming := some (bytes.set 7 f), stale := t.stale }
          start_addr num_registers (bytes.set 7 f) (not_lt.mp hfd) hsend rfl]
      simp only [hlen, htid, h7, hclear, hne 8 (by decide), hloop]
    · simp only [modbus_read_holding_registers, if_neg hfd, ne_eq, hsend, not_false_eq_true,
        if_true]

/-- Witness of C20: the well-formed response to a read of the ten Scenario A
registers, once with function code 0x03 and once with 0x06; the frame with
0x06 is accepted and gives the same ten values. -/
theorem read_ignores_function_code_witness :
    (wellFormedResponse 1 scenarioA).set 7 0x06
      = [0x00, 0x01, 0x00, 0x00, 0x00, 0x17, 0xFF, 0x06, 20] ++ registerBytes scenarioA ∧
    (modbus_read_holding_registers (connected 1)
        { sendResult := 12, incoming := some ((wellFormedResponse 1 scenarioA).set 7 0x06),
          stale := fun _ => 0xAA } 0 10).status = Status.returned MODBUS_SUCCESS ∧
    modbus_read_holding_registers (connected 1)
        { sendResult := 12, incoming := some ((wellFormedResponse 1 scenarioA).set 7 0x06),
          stale := fun _ => 0xAA } 0 10
      = modbus_read_holding_registers (connected 1)
          (answering (wellFormedResponse 1 scenarioA)) 0 10 :=
  have h := read_ignores_function_code (connected 1) (answering (wellFormedResponse 1 scenarioA))
    0 10 (wellFormedResponse 1 scenarioA) 0x06 rfl (by decide) (by decide)
  ⟨by decide, (congrArg Outcome.status h).trans (by decide), h⟩

/-! ## One turn of the polling loop -/

theorem read_keeps_sockfd (g : Globals) (t : Transport) (start_addr num_registers : Nat) :
    (modbus_read_holding_registers g t start_addr num_registers).globals.sockfd = g.sockfd := by
  by_cases hfd : g.sockfd < 0
  · simp only [modbus_read_holding_registers, if_pos hfd]
  · rw [read_globals_of_connected g t start_addr num_registers (not_lt.mp hfd)]

theorem storeRegisters_nil (registers : List Nat) : storeRegisters registers [] = registers := by
  simp only [storeRegisters, List.length_nil, List.drop_zero, List.nil_append]

/-- The turn of the loop when the read returns the connection error. -/
theorem pollCycle_of_connection_error (g : Globals) (registers : List Nat) (e : CycleEnv)
    (h : (modbus_read_holding_registers g e.transport 0 10).status
      = Status.returned MODBUS_ERROR_CONNECTION) :
    pollCycle g registers e =
      { flow := if (modbus_connect (modbus_disconnect
            (modbus_read_holding_registers g e.transport 0 10).globals).1 e.reconnect).code
            ≠ MODBUS_SUCCESS then Flow.stop else Flow.next,
        globals := (modbus_connect (modbus_disconnect
            (modbus_read_holding_registers g e.transport 0 10).globals).1 e.reconnect).globals,
        registers := registers,
        events := Event.readCall ::
          ((modbus_read_holding_registers g e.transport 0 10).log.map
            fun d => Event.print (Line.diag d))
          ++ [Event.print (Line.readError MODBUS_ERROR_CONNECTION),
              Event.print Line.reconnecting, Event.disconnectCall]
          ++ (modbus_disconnect (modbus_read_holding_registers g e.transport 0 10).globals).2
          ++ [Event.sleep 2, Event.connectCall]
          ++ (modbus_connect (modbus_disconnect
              (modbus_read_holding_registers g e.transport 0 10).globals).1 e.reconnect).events
          ++ [if (modbus_connect (modbus_disconnect
                (modbus_read_holding_registers g e.transport 0 10).globals).1 e.reconnect).code
                ≠ MODBUS_SUCCESS then Event.print Line.reconnectFailed else Event.sleep 1] } := by
  have hd : (modbus_read_holding_registers g e.transport 0 10).data = [] :=
    (read_in_bounds g e.transport 0 10 (by decide)).2.2
      (by rw [h]; exact connection_error_ne_success)
  have hne : ¬ (MODBUS_ERROR_CONNECTION = MODBUS_SUCCESS) := by decide
  simp only [pollCycle, h, hd, storeRegisters_nil, if_neg hne, if_true]
  split_ifs <;> rfl

/-- The turn of the loop when the read returns the invalid response error. -/
theorem pollCycle_of_invalid_response (g : Globals) (registers : List Nat) (e : CycleEnv)
    (h : (modbus_read_holding_registers g e.transport 0 10).status
      = Status.returned MODBUS_ERROR_INVALID_RESPONSE) :
    pollCycle g registers e =
      { flow := Flow.next,
        globals := (modbus_read_holding_registers g e.transport 0 10).globals,
        registers := registers,
        events := Event.readCall ::
          ((modbus_read_holding_registers g e.transport 0 10).log.map
            fun d => Event.print (Line.diag d))
          ++ [Event.print (Line.readError MODBUS_ERROR_INVALID_RESPONSE), Event.sleep 1] } := by
  have hd : (modbus_read_holding_registers g e.transport 0 10).data = [] :=
    (read_in_bounds g e.transport 0 10 (by decide)).2.2
      (by rw [h]; exact invalid_response_ne_success)
  have hne : ¬ (MODBUS_ERROR_INVALID_RESPONSE = MODBUS_SUCCESS) := by decide
  have hne2 : ¬ (MODBUS_ERROR_INVALID_RESPONSE = MODBUS_ERROR_CONNECTION) := by decide
  simp only [pollCycle, h, hd, storeRegisters_nil, if_neg hne, if_neg hne2]

/-- The turn of the loop when the read returns success. -/
theorem pollCycle_of_success (g : Globals) (registers : List Nat) (e : CycleEnv)
    (h : (modbus_read_holding_registers g e.transport 0 10).status
      = Status.returned MODBUS_SUCCESS) :
    pollCycle g registers e =
      { flow := Flow.next,
        globals := (modbus_read_holding_registers g e.transport 0 10).globals,
        registers := storeRegisters registers
          (modbus_read_holding_registers g e.transport 0 10).data,
        events := [Event.readCall, Event.clearScreen, Event.print Line.screenTitle]
          ++ (print_drone_data (parse_drone_data (storeRegisters registers
                (modbus_read_holding_registers g e.transport 0 10).data))).map Event.print
          ++ (if (parse_drone_data (storeRegisters registers
                  (modbus_read_holding_registers g e.transport 0 10).data)).fire_authorized ≠ 0
                ∧ (parse_drone_data (storeRegisters registers
                  (modbus_read_holding_registers g e.transport 0 10).data)).drone_count > 0
              then [Event.print Line.fireAlert] else [])
          ++ [Event.sleep 1] } := by
  have hl : (modbus_read_holding_registers g e.transport 0 10).log = [] :=
    ((read_in_bounds g e.transport 0 10 (by decide)).2.1 h).2
  simp only [pollCycle, h, hl, List.map_nil, if_true, List.cons_append, List.nil_append,
    List.append_assoc]

/-- A turn that ends at `sleep(1)` is followed by the rest of the loop. -/
theorem pollLoop_cons_next (g : Globals) (registers : List Nat) (e : CycleEnv)
    (rest : List CycleEnv) (h : (pollCycle g registers e).flow = Flow.next) :
    pollLoop g registers (e :: rest) =
      { pollLoop (pollCycle g registers e).globals (pollCycle g registers e).registers rest with
        events := (pollCycle g registers e).events
          ++ (pollLoop (pollCycle g registers e).globals
                (pollCycle g registers e).registers rest).events } := by
  simp only [pollLoop, h]

/-- A turn that ends at the `break` ends the loop: no later turn runs. -/
theorem pollLoop_cons_stop (g : Globals) (registers : List Nat) (e : CycleEnv)
    (rest : List CycleEnv) (h : (pollCycle g registers e).flow = Flow.stop) :
    pollLoop g registers (e :: rest) = pollCycle g registers e := by
  simp only [pollLoop, h]

/-! ## Events that are calls -/

theorem no_call_among_diag_lines (log : List Diag) :
    Event.connectCall ∉ log.map (fun d => Event.print (Line.diag d)) ∧
    Event.disconnectCall ∉ log.map (fun d => Event.print (Line.diag d)) ∧
    Event.readCall ∉ log.map (fun d => Event.print (Line.diag d)) ∧
    ∀ fd, Event.close fd ∉ log.map (fun d => Event.print (Line.diag d)) := by
  simp only [List.mem_map, not_exists, not_and]
  exact ⟨fun _ _ h => Event.noConfusion h, fun _ _ h => Event.noConfusion h,
    fun _ _ h => Event.noConfusion h, fun _ _ _ h => Event.noConfusion h⟩

theorem no_call_in_modbus_disconnect (g : Globals) :
    Event.connectCall ∉ (modbus_disconnect g).2 ∧
    Event.disconnectCall ∉ (modbus_disconnect g).2 ∧
    Event.readCall ∉ (modbus_disconnect g).2 := by
  by_cases h : g.sockfd ≥ 0
  · simp only [modbus_disconnect, if_pos h, List.mem_singleton]
    exact ⟨fun h => Event.noConfusion h, fun h => Event.noConfusion h,
      fun h => Event.noConfusion h⟩
  · simp only [modbus_disconnect, if_neg h, List.not_mem_nil, not_false_eq_true, and_self]

theorem no_call_in_modbus_connect (g : Globals) (e : ConnectEnv) :
    Event.connectCall ∉ (modbus_connect g e).events ∧
    Event.disconnectCall ∉ (modbus_connect g e).events ∧
    Event.readCall ∉ (modbus_connect g e).events := by
  simp only [modbus_connect]
  split_ifs <;> simp

/-- In the events of a turn that reconnects, each of the three calls occurs once. -/
theorem count_calls_in_reconnect_turn (L D C : List Event) (last : Event) (result : Int)
    (hL : Event.connectCall ∉ L ∧ Event.disconnectCall ∉ L ∧ Event.readCall ∉ L)
    (hD : Event.connectCall ∉ D ∧ Event.disconnectCall ∉ D ∧ Event.readCall ∉ D)
    (hC : Event.connectCall ∉ C ∧ Event.disconnectCall ∉ C ∧ Event.readCall ∉ C)
    (hlast : last = Event.print Line.reconnectFailed ∨ last = Event.sleep 1) :
    List.count Event.disconnectCall
      (Event.readCall :: L
        ++ [Event.print (Line.readError result), Event.print Line.reconnecting,
            Event.disconnectCall]
        ++ D ++ [Event.sleep 2, Event.connectCall] ++ C ++ [last]) = 1 ∧
    List.count Event.connectCall
      (Event.readCall :: L
        ++ [Event.print (Line.readError result), Event.print Line.reconnecting,
            Event.disconnectCall]
        ++ D ++ [Event.sleep 2, Event.connectCall] ++ C ++ [last]) = 1 ∧
    List.count Event.readCall
      (Event.readCall :: L
        ++ [Event.print (Line.readError result), Event.print Line.reconnecting,
            Event.disconnectCall]
        ++ D ++ [Event.sleep 2, Event.connectCall] ++ C ++ [last]) = 1 := by
  rcases hlast with rfl | rfl <;>
    simp [List.count_append, List.count_cons, List.count_eq_zero.mpr hL.1,
      List.count_eq_zero.mpr hL.2.1, List.count_eq_zero.mpr hL.2.2,
      List.count_eq_zero.mpr hD.1, List.count_eq_zero.mpr hD.2.1,
      List.count_eq_zero.mpr hD.2.2, List.count_eq_zero.mpr hC.1,
      List.count_eq_zero.mpr hC.2.1, List.count_eq_zero.mpr hC.2.2]

/-! ## Reconnect policy (claim C12) -/

/-- C12. In a turn of the loop whose read returns `MODBUS_ERROR_CONNECTION`
the program calls `modbus_disconnect`, sleeps 2 seconds and calls
`modbus_connect`, in this order and each exactly once, after the single read
of the turn. If that `modbus_connect` fails the turn ends at the `break`:
whatever turns the environment still offers, the loop has ended with this
one, so no further read or connect happens in it. If it succeeds the turn ends
at `sleep(1)` and the loop goes on with the next turn. -/
theorem reconnect_once_after_connection_error (g : Globals) (registers : List Nat)
    (e : CycleEnv)
    (h : (modbus_read_holding_registers g e.transport 0 10).status
      = Status.returned MODBUS_ERROR_CONNECTION) :
    (pollCycle g registers e).events =
      Event.readCall ::
        ((modbus_read_holding_registers g e.transport 0 10).log.map
          fun d => Event.print (Line.diag d))
        ++ [Event.print (Line.readError MODBUS_ERROR_CONNECTION),
            Event.print Line.reconnecting, Event.disconnectCall]
        ++ (modbus_disconnect (modbus_read_holding_registers g e.transport 0 10).globals).2
        ++ [Event.sleep 2, Event.connectCall]
        ++ (modbus_connect (modbus_disconnect
            (modbus_read_holding_registers g e.transport 0 10).globals).1 e.reconnect).events
        ++ [if (modbus_connect (modbus_disconnect
              (modbus_read_holding_registers g e.transport 0 10).globals).1 e.reconnect).code
              ≠ MODBUS_SUCCESS then Event.print Line.reconnectFailed else Event.sleep 1] ∧
    List.count Event.disconnectCall (pollCycle g registers e).events = 1 ∧
    List.count Event.connectCall (pollCycle g registers e).events = 1 ∧
    List.count Event.readCall (pollCycle g registers e).events = 1 ∧
    ((modbus_connect (modbus_disconnect
        (modbus_read_holding_registers g e.transport 0 10).globals).1 e.reconnect).code
        ≠ MODBUS_SUCCESS →
      (pollCycle g registers e).flow = Flow.stop ∧
      ∀ rest : List CycleEnv, pollLoop g registers (e :: rest) = pollCycle g registers e) ∧
    ((modbus_connect (modbus_disconnect
        (modbus_read_holding_registers g e.transport 0 10).globals).1 e.reconnect).code
        = MODBUS_SUCCESS →
      (pollCycle g registers e).flow = Flow.next ∧
      ∀ rest : List CycleEnv,
        (pollLoop g registers (e :: rest)).events =
          (pollCycle g registers e).events
            ++ (pollLoop (pollCycle g registers e).globals
                  (pollCycle g registers e).registers rest).events ∧
        (pollLoop g registers (e :: rest)).flow =
          (pollLoop (pollCycle g registers e).globals
            (pollCycle g registers e).registers rest).flow) := by
  have hc := pollCycle_of_connection_error g registers e h
  have h1 := no_call_among_diag_lines (modbus_read_holding_registers g e.transport 0 10).log
  have h2 := no_call_in_modbus_disconnect
    (modbus_read_holding_registers g e.transport 0 10).globals
  have h3 := no_call_in_modbus_connect
    (modbus_disconnect (modbus_read_holding_registers g e.transport 0 10).globals).1 e.reconnect
  have hlast : (if (modbus_connect (modbus_disconnect
        (modbus_read_holding_registers g e.transport 0 10).globals).1 e.reconnect).code
        ≠ MODBUS_SUCCESS then Event.print Line.reconnectFailed else Event.sleep 1)
      = Event.print Line.reconnectFailed ∨
      (if (modbus_connect (modbus_disconnect
        (modbus_read_holding_registers g e.transport 0 10).globals).1 e.reconnect).code
        ≠ MODBUS_SUCCESS then Event.print Line.reconnectFailed else Event.sleep 1)
      = Event.sleep 1 := by
    split_ifs
    · exact Or.inl rfl
    · exact Or.inr rfl
  have hcount := count_calls_in_reconnect_turn _ _ _ _ (MODBUS_ERROR_CONNECTION)
    ⟨h1.1, h1.2.1, h1.2.2.1⟩ h2 h3 hlast
  refine ⟨by rw [hc], ?_, ?_, ?_, ?_, ?_⟩
  · rw [hc]
    exact hcount.1
  · rw [hc]
    exact hcount.2.1
  · rw [hc]
    exact hcount.2.2
  · intro hfail
    have hflow : (pollCycle g registers e).flow = Flow.stop := by
      rw [hc]
      simp only [if_pos hfail]
    exact ⟨hflow, fun rest => pollLoop_cons_stop g registers e rest hflow⟩
  · intro hok
    have hflow : (pollCycle g registers e).flow = Flow.next := by
      rw [hc]
      simp only [hok, ne_eq, not_true_eq_false, if_false]
    refine ⟨hflow, fun rest => ?_⟩
    rw [pollLoop_cons_next g registers e rest hflow]
    exact ⟨rfl, rfl⟩

set_option maxRecDepth 100000 in
/-- Witness of C12: `recv` fails during the read and the system refuses the
new connection; the turn closes socket 3, tries once on socket 4 and ends
the loop although a second turn is on offer. -/
theorem reconnect_once_after_connection_error_witness :
    (pollCycle (connected 1) scenarioA
        { transport := recvFailing, reconnect := refusing }).events =
      [Event.readCall, Event.print (Line.diag Diag.recvFailed),
       Event.print (Line.readError MODBUS_ERROR_CONNECTION), Event.print Line.reconnecting,
       Event.disconnectCall, Event.close 3, Event.sleep 2, Event.connectCall,
       Event.print Line.connectError, Event.close 4, Event.print Line.reconnectFailed] ∧
    pollLoop (connected 1) scenarioA
        [{ transport := recvFailing, reconnect := refusing },
         { transport := answering (wellFormedResponse 2 scenarioA), reconnect := accepting }]
      = pollCycle (connected 1) scenarioA { transport := recvFailing, reconnect := refusing } :=
  have h := reconnect_once_after_connection_error (connected 1) scenarioA
    { transport := recvFailing, reconnect := refusing } (by decide)
  ⟨h.1.trans (by decide),
   (h.2.2.2.2.1 (by decide)).2
     [{ transport := answering (wellFormedResponse 2 scenarioA), reconnect := accepting }]⟩

/-! ## Decode errors (claim C13) -/

/-- C13. In a turn of the loop whose read returns the invalid response error
(the code of the four decode errors: invalid length, transaction mismatch,
Modbus exception, byte count) the program calls neither `modbus_disconnect`
nor `modbus_connect` and closes nothing: `sockfd` and the array `registers`
are what they were, the only events after the read are the error line and
`sleep(1)`, and the loop goes on with the next turn. -/
theorem decode_error_keeps_session (g : Globals) (registers : List Nat) (e : CycleEnv)
    (h : (modbus_read_holding_registers g e.transport 0 10).status
      = Status.returned MODBUS_ERROR_INVALID_RESPONSE) :
    (pollCycle g registers e).flow = Flow.next ∧
    (pollCycle g registers e).globals.sockfd = g.sockfd ∧
    (pollCycle g registers e).registers = registers ∧
    (pollCycle g registers e).events =
      Event.readCall ::
        ((modbus_read_holding_registers g e.transport 0 10).log.map
          fun d => Event.print (Line.diag d))
        ++ [Event.print (Line.readError MODBUS_ERROR_INVALID_RESPONSE), Event.sleep 1] ∧
    Event.disconnectCall ∉ (pollCycle g registers e).events ∧
    Event.connectCall ∉ (pollCycle g registers e).events ∧
    (∀ fd, Event.close fd ∉ (pollCycle g registers e).events) ∧
    (∀ rest : List CycleEnv,
      (pollLoop g registers (e :: rest)).events =
        (pollCycle g registers e).events
          ++ (pollLoop (pollCycle g registers e).globals registers rest).events ∧
      (pollLoop g registers (e :: rest)).flow =
        (pollLoop (pollCycle g registers e).globals registers rest).flow) := by
  have hc := pollCycle_of_invalid_response g registers e h
  have h1 := no_call_among_diag_lines (modbus_read_holding_registers g e.transport 0 10).log
  have hflow : (pollCycle g registers e).flow = Flow.next := by rw [hc]
  have hregs : (pollCycle g registers e).registers = registers := by rw [hc]
  refine ⟨hflow, ?_, hregs, by rw [hc], ?_, ?_, ?_, ?_⟩
  · rw [hc]
    exact read_keeps_sockfd g e.transport 0 10
  · rw [hc]
    simp only [List.cons_append, List.mem_cons, List.mem_append, List.not_mem_nil, or_false,
      not_or]
    exact ⟨fun h => Event.noConfusion h, h1.2.1, fun h => Event.noConfusion h,
      fun h => Event.noConfusion h⟩
  · rw [hc]
    simp only [List.cons_append, List.mem_cons, List.mem_append, List.not_mem_nil, or_false,
      not_or]
    exact ⟨fun h => Event.noConfusion h, h1.1, fun h => Event.noConfusion h,
      fun h => Event.noConfusion h⟩
  · intro fd
    rw [hc]
    simp only [List.cons_append, List.mem_cons, List.mem_append, List.not_mem_nil, or_false,
      not_or]
    exact ⟨fun h => Event.noConfusion h, h1.2.2.2 fd, fun h => Event.noConfusion h,
      fun h => Event.noConfusion h⟩
  · intro rest
    rw [pollLoop_cons_next g registers e rest hflow, hregs]
    exact ⟨rfl, rfl⟩

set_option maxRecDepth 100000 in
/-- Witness of C13: a 29-byte response with byte count 18 to the read of 10
registers; the turn prints the two error lines, sleeps and keeps socket 3. -/
theorem decode_error_keeps_session_witness :
    (pollCycle (connected 1) scenarioA
        { transport := answering ([0x00, 0x01, 0x00, 0x00, 0x00, 0x17, 0xFF, 0x03, 18]
            ++ List.replicate 20 0),
          reconnect := refusing }).events =
      [Event.readCall, Event.print (Line.diag (Diag.invalidByteCount 18)),
       Event.print (Line.readError MODBUS_ERROR_INVALID_RESPONSE), Event.sleep 1] ∧
    (pollCycle (connected 1) scenarioA
        { transport := answering ([0x00, 0x01, 0x00, 0x00, 0x00, 0x17, 0xFF, 0x03, 18]
            ++ List.replicate 20 0),
          reconnect := refusing }).globals.sockfd = 3 :=
  have h := decode_error_keeps_session (connected 1) scenarioA
    { transport := answering ([0x00, 0x01, 0x00, 0x00, 0x00, 0x17, 0xFF, 0x03, 18]
        ++ List.replicate 20 0),
      reconnect := refusing } (by decide)
  ⟨h.2.2.2.1.trans (by decide), h.2.1⟩

/-! ## The fire alert (claim C15) -/

theorem fireAlert_not_in_print_drone_data (data : drone_data_t) :
    Line.fireAlert ∉ print_drone_data data := by
  simp only [print_drone_data]
  split_ifs <;> simp

theorem noDrones_in_print_drone_data (data : drone_data_t) :
    Line.noDrones ∈ print_drone_data data ↔ data.drone_count = 0 := by
  simp only [print_drone_data]
  split_ifs with h1 h2 <;> simp <;> omega

theorem parse_drone_data_of_ten (data rest : List Nat) (h : data.length = 10) :
    parse_drone_data (storeRegisters rest data) = parse_drone_data data := by
  have hget : ∀ i, i < 10 → (storeRegisters rest data).getD i 0 = data.getD i 0 := by
    intro i hi
    simp only [storeRegisters, List.getD_eq_getElem?_getD]
    rw [List.getElem?_append_left (by omega)]
  simp only [parse_drone_data, hget 0 (by decide), hget 1 (by decide), hget 2 (by decide),
    hget 3 (by decide), hget 4 (by decide), hget 5 (by decide), hget 6 (by decide),
    hget 7 (by decide), hget 8 (by decide), hget 9 (by decide)]

/-- C15. In a turn of the loop whose read returns success, with `block` the
telemetry parsed from the ten values the read stored: the alert lines are
printed exactly when `fire_authorized ≠ 0` and `drone_count > 0`, and the
line for no drones is printed exactly when `drone_count = 0`; so with
`drone_count = 0` and `fire_authorized = 0` there is no alert and the line
for no drones is printed. -/
theorem fire_alert_iff_authorized_and_drones (g : Globals) (registers : List Nat)
    (e : CycleEnv)
    (h : (modbus_read_holding_registers g e.transport 0 10).status
      = Status.returned MODBUS_SUCCESS) :
    (Event.print Line.fireAlert ∈ (pollCycle g registers e).events ↔
      (parse_drone_data (modbus_read_holding_registers g e.transport 0 10).data).fire_authorized
          ≠ 0 ∧
        (parse_drone_data (modbus_read_holding_registers g e.transport 0 10).data).drone_count
          > 0) ∧
    (Event.print Line.noDrones ∈ (pollCycle g registers e).events ↔
      (parse_drone_data (modbus_read_holding_registers g e.transport 0 10).data).drone_count
        = 0) ∧
    ((parse_drone_data (modbus_read_holding_registers g e.transport 0 10).data).drone_count
        = 0 →
      (parse_drone_data (modbus_read_holding_registers g e.transport 0 10).data).fire_authorized
        = 0 →
      Event.print Line.fireAlert ∉ (pollCycle g registers e).events ∧
      Event.print Line.noDrones ∈ (pollCycle g registers e).events) ∧
    (pollCycle g registers e).flow = Flow.next := by
  have hc := pollCycle_of_success g registers e h
  have hlen : (modbus_read_holding_registers g e.transport 0 10).data.length = 10 :=
    ((read_in_bounds g e.transport 0 10 (by decide)).2.1 h).1
  have hparse := parse_drone_data_of_ten
    (modbus_read_holding_registers g e.transport 0 10).data registers hlen
  rw [hparse] at hc
  have hinj : ∀ (line : Line) (lines : List Line),
      Event.print line ∈ lines.map Event.print ↔ line ∈ lines := by
    intro line lines
    simp only [List.mem_map, Event.print.injEq, exists_eq_right]
  have halert : Event.print Line.fireAlert ∈ (pollCycle g registers e).events ↔
      (parse_drone_data (modbus_read_holding_registers g e.transport 0 10).data).fire_authorized
          ≠ 0 ∧
        (parse_drone_data (modbus_read_holding_registers g e.transport 0 10).data).drone_count
          > 0 := by
    rw [hc]
    have hnot := fireAlert_not_in_print_drone_data
      (parse_drone_data (modbus_read_holding_registers g e.transport 0 10).data)
    by_cases hcond :
        (parse_drone_data (modbus_read_holding_registers g e.transport 0 10).data).fire_authorized
            ≠ 0 ∧
          (parse_drone_data (modbus_read_holding_registers g e.transport 0 10).data).drone_count
            > 0
    · simp only [if_pos hcond, List.mem_append, List.mem_singleton, or_true, true_or, true_iff]
      exact hcond
    · simp only [if_neg hcond, List.mem_append, List.mem_cons, List.not_mem_nil, or_false,
        hinj, hnot, iff_false, not_or]
      refine ⟨fun hm => ?_, fun hb => absurd hb hcond⟩
      rcases hm with (hm | hm | hm) | hm
      · exact Event.noConfusion hm
      · exact Event.noConfusion hm
      · exact Line.noConfusion (Event.print.inj hm)
      · exact Event.noConfusion hm
  have hnone : Event.print Line.noDrones ∈ (pollCycle g registers e).events ↔
      (parse_drone_data (modbus_read_holding_registers g e.transport 0 10).data).drone_count
        = 0 := by
    rw [hc, ← noDrones_in_print_drone_data]
    constructor
    · intro hmem
      simp only [List.mem_append, List.mem_cons, List.not_mem_nil, or_false, hinj] at hmem
      rcases hmem with ((hmem | hmem) | hmem) | hmem
      · rcases hmem with hmem | hmem | hmem
        · exact Event.noConfusion hmem
        · exact Event.noConfusion hmem
        · exact Line.noConfusion (Event.print.inj hmem)
      · exact hmem
      · split_ifs at hmem
        · rcases List.mem_singleton.mp hmem with hmem
          exact Line.noConfusion (Event.print.inj hmem)
        · exact absurd hmem (List.not_mem_nil _)
      · exact Event.noConfusion hmem
    · intro hmem
      simp only [List.mem_append, hinj]
      exact Or.inl (Or.inl (Or.inr hmem))
  refine ⟨halert, hnone, ?_, by rw [hc]⟩
  intro hcount hfire
  refine ⟨?_, hnone.mpr hcount⟩
  rw [halert]
  intro hboth
  exact hboth.1 hfire

set_option maxRecDepth 100000 in
/-- Witness of C15: Scenario A (2 drones, fire authorized) prints the alert;
ten registers of 0 print the line for no drones and no alert. -/
theorem fire_alert_iff_authorized_and_drones_witness :
    Event.print Line.fireAlert ∈
      (pollCycle (connected 1) (List.replicate 10 0)
        { transport := answering (wellFormedResponse 1 scenarioA),
          reconnect := refusing }).events ∧
    (Event.print Line.fireAlert ∉
      (pollCycle (connected 1) scenarioA
        { transport := answering (wellFormedResponse 1 (List.replicate 10 0)),
          reconnect := refusing }).events ∧
     Event.print Line.noDrones ∈
      (pollCycle (connected 1) scenarioA
        { transport := answering (wellFormedResponse 1 (List.replicate 10 0)),
          reconnect := refusing }).events) :=
  ⟨(fire_alert_iff_authorized_and_drones (connected 1) (List.replicate 10 0)
      { transport := answering (wellFormedResponse 1 scenarioA), reconnect := refusing }
      (by decide)).1.mpr (by decide),
   (fire_alert_iff_authorized_and_drones (connected 1) scenarioA
      { transport := answering (wellFormedResponse 1 (List.replicate 10 0)),
        reconnect := refusing }
      (by decide)).2.2.1 (by decide) (by decide)⟩

/-! ## Exit status (claim C11) -/

/-- Once the first connection is made, `main` returns only through the
`break` of the loop, and the value it returns is 0; it has then called
`modbus_disconnect` and is disconnected. -/
theorem main_returns_zero_after_loop (g : Globals) (env : MainEnv) (code : Int)
    (hstart : (modbus_connect g env.startup).code = MODBUS_SUCCESS)
    (hexit : (main g env).exit = some code) :
    code = 0 ∧
    (pollLoop (modbus_connect g env.startup).globals env.registers env.cycles).flow
      = Flow.stop ∧
    (main g env).globals.sockfd < 0 := by
  have hne : ¬ ((modbus_connect g env.startup).code ≠ MODBUS_SUCCESS) := not_not.mpr hstart
  cases hflow : (pollLoop (modbus_connect g env.startup).globals env.registers env.cycles).flow with
  | next =>
    simp only [main, if_neg hne, hflow] at hexit
    exact Option.noConfusion hexit
  | undefined =>
    simp only [main, if_neg hne, hflow] at hexit
    exact Option.noConfusion hexit
  | stop =>
    simp only [main, if_neg hne, hflow, Option.some.injEq] at hexit
    refine ⟨hexit.symm, rfl, ?_⟩
    simp only [main, if_neg hne, hflow]
    exact modbus_disconnect_leaves_disconnected _

set_option maxRecDepth 100000 in
/-- C11 at a failed reconnect. The program connects, the first read fails
at `recv`, the reconnect is refused and the loop ends: `main` calls
`modbus_disconnect`, prints the last line and returns 0, not a non-zero
status. A failure of the first connection, by contrast, returns -1. -/
theorem main_returns_zero_when_reconnect_fails :
    (main Globals.initial
        { startup := accepting, registers := List.replicate 10 0,
          cycles := [{ transport := recvFailing, reconnect := refusing }] }).exit = some 0 ∧
    (main Globals.initial
        { startup := accepting, registers := List.replicate 10 0,
          cycles := [{ transport := recvFailing, reconnect := refusing }] }).events =
      [Event.print Line.banner, Event.connectCall, Event.print Line.startupDone,
       Event.readCall, Event.print (Line.diag Diag.recvFailed),
       Event.print (Line.readError MODBUS_ERROR_CONNECTION), Event.print Line.reconnecting,
       Event.disconnectCall, Event.close 4, Event.sleep 2, Event.connectCall,
       Event.print Line.connectError, Event.close 4, Event.print Line.reconnectFailed,
       Event.disconnectCall, Event.print Line.terminated] ∧
    (main Globals.initial
        { startup := accepting, registers := List.replicate 10 0,
          cycles := [{ transport := recvFailing, reconnect := refusing }] }).globals.sockfd
      = -1 ∧
    (main Globals.initial
        { startup := refusing, registers := List.replicate 10 0, cycles := [] }).exit
      = some (-1) := by
  decide

/-- In a turn whose read returns the connection error each of the three
calls occurs once among the events. -/
theorem reconnect_turn_counts (g : Globals) (registers : List Nat) (e : CycleEnv)
    (h : (modbus_read_holding_registers g e.transport 0 10).status
      = Status.returned MODBUS_ERROR_CONNECTION) :
    List.count Event.disconnectCall (pollCycle g registers e).events = 1 ∧
    List.count Event.connectCall (pollCycle g registers e).events = 1 ∧
    List.count Event.readCall (pollCycle g registers e).events = 1 := by
  have h1 := no_call_among_diag_lines (modbus_read_holding_registers g e.transport 0 10).log
  have h2 := no_call_in_modbus_disconnect
    (modbus_read_holding_registers g e.transport 0 10).globals
  have h3 := no_call_in_modbus_connect
    (modbus_disconnect (modbus_read_holding_registers g e.transport 0 10).globals).1 e.reconnect
  have hlast : (if (modbus_connect (modbus_disconnect
        (modbus_read_holding_registers g e.transport 0 10).globals).1 e.reconnect).code
        ≠ MODBUS_SUCCESS then Event.print Line.reconnectFailed else Event.sleep 1)
      = Event.print Line.reconnectFailed ∨
      (if (modbus_connect (modbus_disconnect
        (modbus_read_holding_registers g e.transport 0 10).globals).1 e.reconnect).code
        ≠ MODBUS_SUCCESS then Event.print Line.reconnectFailed else Event.sleep 1)
      = Event.sleep 1 := by
    split_ifs
    · exact Or.inl rfl
    · exact Or.inr rfl
  rw [pollCycle_of_connection_error g registers e h]
  exact count_calls_in_reconnect_turn _ _ _ _ (MODBUS_ERROR_CONNECTION)
    ⟨h1.1, h1.2.1, h1.2.2.1⟩ h2 h3 hlast

/-! ## The transaction counter (claim C8) -/

theorem modbus_connect_keeps_counter (g : Globals) (e : ConnectEnv) :
    (modbus_connect g e).globals.transaction_id = g.transaction_id := by
  simp only [modbus_connect]
  split_ifs <;> rfl

theorem modbus_disconnect_keeps_counter (g : Globals) :
    (modbus_disconnect g).1.transaction_id = g.transaction_id := by
  simp only [modbus_disconnect]
  split_ifs <;> rfl

theorem modbus_connect_success_connected (g : Globals) (e : ConnectEnv)
    (h : (modbus_connect g e).code = MODBUS_SUCCESS) :
    0 ≤ (modbus_connect g e).globals.sockfd := by
  simp only [modbus_connect] at h ⊢
  split_ifs at h ⊢ with h1 h2
  · exact absurd h (show ¬ (MODBUS_ERROR_CONNECTION = MODBUS_SUCCESS) by decide)
  · exact absurd h (show ¬ (MODBUS_ERROR_CONNECTION = MODBUS_SUCCESS) by decide)
  · exact not_lt.mp h1

theorem write_keeps_sockfd (g : Globals) (t : Transport) (address value : Nat) :
    (modbus_write_single_register g t address value).globals.sockfd = g.sockfd := by
  by_cases hfd : g.sockfd < 0
  · simp only [modbus_write_single_register, if_pos hfd]
  · rw [write_globals_of_connected g t address value (not_lt.mp hfd)]

/-- A call moves the counter by one, modulo 65536, exactly when it hands a
request to `send`; every other call keeps the counter. -/
theorem Call.run_counter (g : Globals) (c : Call) :
    (Call.run g c).transaction_id =
      if (Call.request g c).isSome then (g.transaction_id + 1) % 65536
      else g.transaction_id := by
  cases c with
  | read start_addr num_registers t =>
    by_cases hfd : g.sockfd < 0
    · simp only [Call.run, Call.request, modbus_read_holding_registers, if_pos hfd,
        Option.isSome_none, Bool.false_eq_true, if_false]
    · simp only [Call.run, Call.request,
        read_globals_of_connected g t start_addr num_registers (not_lt.mp hfd),
        read_request_of_connected g t start_addr num_registers (not_lt.mp hfd),
        Option.isSome_some, if_true]
  | write address value t =>
    by_cases hfd : g.sockfd < 0
    · simp only [Call.run, Call.request, modbus_write_single_register, if_pos hfd,
        Option.isSome_none, Bool.false_eq_true, if_false]
    · simp only [Call.run, Call.request,
        write_globals_of_connected g t address value (not_lt.mp hfd),
        write_request_of_connected g t address value (not_lt.mp hfd),
        Option.isSome_some, if_true]
  | connect e =>
    simp only [Call.run, Call.request, Option.isSome_none, Bool.false_eq_true, if_false,
      modbus_connect_keeps_counter]
  | disconnect =>
    simp only [Call.run, Call.request, Option.isSome_none, Bool.false_eq_true, if_false,
      modbus_disconnect_keeps_counter]

theorem runCalls_counter (calls : List Call) :
    ∀ g : Globals, g.transaction_id < 65536 →
      (runCalls g calls).transaction_id
        = (g.transaction_id + issuedRequests g calls) % 65536 := by
  induction calls with
  | nil =>
    intro g hT
    simp only [runCalls, List.foldl_nil, issuedRequests, Nat.add_zero, Nat.mod_eq_of_lt hT]
  | cons c cs ih =>
    intro g hT
    have hstep := Call.run_counter g c
    have hlt : (Call.run g c).transaction_id < 65536 := by
      rw [hstep]
      split_ifs
      · exact Nat.mod_lt _ (by decide)
      · exact hT
    have hrec := ih (Call.run g c) hlt
    simp only [runCalls, List.foldl_cons] at hrec ⊢
    rw [hrec, hstep]
    simp only [issuedRequests]
    split_ifs <;> omega

/-- On a session that is connected, a list of reads and writes issues one
request per call and keeps `sockfd`. -/
theorem issuedRequests_of_connected (calls : List Call) :
    ∀ g : Globals, 0 ≤ g.sockfd → (∀ c ∈ calls, Call.isRequest c = true) →
      issuedRequests g calls = calls.length ∧ (runCalls g calls).sockfd = g.sockfd := by
  induction calls with
  | nil => intro g _ _; exact ⟨rfl, rfl⟩
  | cons c cs ih =>
    intro g hconn hall
    have hc := hall c (List.mem_cons_self c cs)
    have hfd : ¬ g.sockfd < 0 := not_lt.mpr hconn
    have hstep : (Call.request g c).isSome = true ∧ (Call.run g c).sockfd = g.sockfd := by
      cases c with
      | read start_addr num_registers t =>
        exact ⟨by simp only [Call.request,
          read_request_of_connected g t start_addr num_registers hconn, Option.isSome_some],
          read_keeps_sockfd g t start_addr num_registers⟩
      | write address value t =>
        exact ⟨by simp only [Call.request,
          write_request_of_connected g t address value hconn, Option.isSome_some],
          write_keeps_sockfd g t address value⟩
      | connect e => exact absurd hc (show ¬ (false = true) by decide)
      | disconnect => exact absurd hc (show ¬ (false = true) by decide)
    have hrec := ih (Call.run g c) (by rw [hstep.2]; exact hconn)
      (fun d hd => hall d (List.mem_cons_of_mem c hd))
    simp only [runCalls, List.foldl_cons] at hrec ⊢
    simp only [issuedRequests, hstep.1, if_true, hrec.1, List.length_cons, hrec.2, hstep.2,
      and_true]
    omega

/-- A read of 10 registers returns one of the three codes. -/
theorem read_of_ten_status (g : Globals) (t : Transport) (start_addr : Nat) :
    (modbus_read_holding_registers g t start_addr 10).status = Status.returned MODBUS_SUCCESS ∨
    (modbus_read_holding_registers g t start_addr 10).status
      = Status.returned MODBUS_ERROR_CONNECTION ∨
    (modbus_read_holding_registers g t start_addr 10).status
      = Status.returned MODBUS_ERROR_INVALID_RESPONSE := by
  rcases read_error_or_decoded g t start_addr 10 with
    ⟨hs, _⟩ | ⟨hs, _⟩ | ⟨_, _, _, _, _, _, hs, _, _⟩
  · exact Or.inr (Or.inl hs)
  · exact Or.inr (Or.inr hs)
  · rw [decodeRegisters_data_length _ 10 (by decide)] at hs
    exact Or.inl hs

/-- Every turn of the loop on a connected session moves the counter by one,
also the turns that disconnect and reconnect. -/
theorem pollCycle_counter (g : Globals) (registers : List Nat) (e : CycleEnv)
    (hconn : 0 ≤ g.sockfd) :
    (pollCycle g registers e).globals.transaction_id = (g.transaction_id + 1) % 65536 := by
  have hg := read_globals_of_connected g e.transport 0 10 hconn
  rcases read_of_ten_status g e.transport 0 with h | h | h
  · rw [pollCycle_of_success g registers e h, hg]
  · rw [pollCycle_of_connection_error g registers e h]
    simp only [modbus_connect_keeps_counter, modbus_disconnect_keeps_counter, hg]
  · rw [pollCycle_of_invalid_response g registers e h, hg]

/-- Every turn of the loop calls the read exactly once. -/
theorem pollCycle_reads_once (g : Globals) (registers : List Nat) (e : CycleEnv) :
    List.count Event.readCall (pollCycle g registers e).events = 1 := by
  have h1 := no_call_among_diag_lines (modbus_read_holding_registers g e.transport 0 10).log
  rcases read_of_ten_status g e.transport 0 with h | h | h
  · rw [pollCycle_of_success g registers e h]
    have hmap : ∀ lines : List Line,
        List.count Event.readCall (lines.map Event.print) = 0 := by
      intro lines
      rw [List.count_eq_zero]
      simp only [List.mem_map, not_exists, not_and]
      exact fun _ _ h => Event.noConfusion h
    simp only [List.count_append, hmap]
    split_ifs <;> simp [List.count_cons]
  · exact (reconnect_turn_counts g registers e h).2.2
  · rw [pollCycle_of_invalid_response g registers e h]
    simp [List.count_append, List.count_cons, List.count_eq_zero.mpr h1.2.2.1]

/-- A turn that ends at `sleep(1)` leaves the session connected if it was. -/
theorem pollCycle_next_connected (g : Globals) (registers : List Nat) (e : CycleEnv)
    (hconn : 0 ≤ g.sockfd) (hflow : (pollCycle g registers e).flow = Flow.next) :
    0 ≤ (pollCycle g registers e).globals.sockfd := by
  rcases read_of_ten_status g e.transport 0 with h | h | h
  · rw [pollCycle_of_success g registers e h]
    show 0 ≤ (modbus_read_holding_registers g e.transport 0 10).globals.sockfd
    rw [read_keeps_sockfd]
    exact hconn
  · rw [pollCycle_of_connection_error g registers e h] at hflow ⊢
    by_cases hc : (modbus_connect (modbus_disconnect
        (modbus_read_holding_registers g e.transport 0 10).globals).1 e.reconnect).code
        = MODBUS_SUCCESS
    · exact modbus_connect_success_connected _ _ hc
    · simp only [ne_eq, hc, not_false_eq_true, if_true] at hflow
      exact Flow.noConfusion hflow
  · rw [pollCycle_of_invalid_response g registers e h]
    show 0 ≤ (modbus_read_holding_registers g e.transport 0 10).globals.sockfd
    rw [read_keeps_sockfd]
    exact hconn

/-- Over any number of turns of the loop the counter moves by the number of
reads the loop made. -/
theorem pollLoop_counter (cycles : List CycleEnv) :
    ∀ (g : Globals) (registers : List Nat), 0 ≤ g.sockfd → g.transaction_id < 65536 →
      (pollLoop g registers cycles).globals.transaction_id
        = (g.transaction_id
            + List.count Event.readCall (pollLoop g registers cycles).events) % 65536 := by
  induction cycles with
  | nil =>
    intro g registers _ hT
    simp only [pollLoop, List.count_nil, Nat.add_zero, Nat.mod_eq_of_lt hT]
  | cons e es ih =>
    intro g registers hconn hT
    have hc := pollCycle_counter g registers e hconn
    have hr := pollCycle_reads_once g registers e
    cases hflow : (pollCycle g registers e).flow with
    | next =>
      have hrec := ih (pollCycle g registers e).globals (pollCycle g registers e).registers
        (pollCycle_next_connected g registers e hconn hflow)
        (by rw [hc]; exact Nat.mod_lt _ (by decide))
      rw [pollLoop_cons_next g registers e es hflow]
      simp only [List.count_append, hr]
      rw [hrec, hc]
      omega
    | stop =>
      rw [pollLoop_cons_stop g registers e es hflow, hc, hr]
    | undefined =>
      have hu : pollLoop g registers (e :: es) = pollCycle g registers e := by
        simp only [pollLoop, hflow]
      rw [hu, hc, hr]

/-- C8. From the initial counter value 1, after any calls of
`modbus_read_holding_registers`, `modbus_write_single_register`,
`modbus_connect` and `modbus_disconnect` in any order and with any outcome,
of which `N` issued a request (handed one to `send`), the counter holds
`(1 + N) mod 65536` and the next request carries exactly this transaction
id. Neither `modbus_connect` nor `modbus_disconnect` touches the counter.
On a connected session with reads and writes only, `N` is the number of
calls. In the program: once the first connection is made, after any turns of
the polling loop, reconnects included, the counter holds 1 plus the number of
reads made, modulo 65536. -/
theorem transaction_id_after_requests (g : Globals) (calls : List Call)
    (hinit : g.transaction_id = 1) :
    (runCalls g calls).transaction_id = (1 + issuedRequests g calls) % 65536 ∧
    (∀ (t : Transport) (start_addr num_registers : Nat), 0 ≤ (runCalls g calls).sockfd →
      (modbus_read_holding_registers (runCalls g calls) t start_addr num_registers).request
        = some (readRequest ((1 + issuedRequests g calls) % 65536) start_addr num_registers)) ∧
    (∀ (t : Transport) (address value : Nat), 0 ≤ (runCalls g calls).sockfd →
      (modbus_write_single_register (runCalls g calls) t address value).request
        = some (writeRequest ((1 + issuedRequests g calls) % 65536) address value)) ∧
    (0 ≤ g.sockfd → (∀ c ∈ calls, Call.isRequest c = true) →
      issuedRequests g calls = calls.length ∧
      (runCalls g calls).transaction_id = (1 + calls.length) % 65536 ∧
      (runCalls g calls).sockfd = g.sockfd) ∧
    (∀ e : ConnectEnv, (modbus_connect g e).globals.transaction_id = 1) ∧
    (modbus_disconnect g).1.transaction_id = 1 ∧
    (∀ (startup : ConnectEnv) (registers : List Nat) (cycles : List CycleEnv),
      (modbus_connect g startup).code = MODBUS_SUCCESS →
      (pollLoop (modbus_connect g startup).globals registers cycles).globals.transaction_id
        = (1 + List.count Event.readCall
            (pollLoop (modbus_connect g startup).globals registers cycles).events)
          % 65536) := by
  have hrun := runCalls_counter calls g (by rw [hinit]; decide)
  rw [hinit] at hrun
  refine ⟨hrun, ?_, ?_, ?_, ?_, ?_, ?_⟩
  · intro t start_addr num_registers hc
    rw [read_request_of_connected _ t start_addr num_registers hc, hrun]
  · intro t address value hc
    rw [write_request_of_connected _ t address value hc, hrun]
  · intro hconn hall
    have hreq := issuedRequests_of_connected calls g hconn hall
    refine ⟨hreq.1, ?_, hreq.2⟩
    rw [hrun, hreq.1]
  · intro e
    rw [modbus_connect_keeps_counter, hinit]
  · rw [modbus_disconnect_keeps_counter, hinit]
  · intro startup registers cycles hstart
    have hloop := pollLoop_counter cycles (modbus_connect g startup).globals registers
      (modbus_connect_success_connected g startup hstart)
      (by rw [modbus_connect_keeps_counter, hinit]; decide)
    rw [modbus_connect_keeps_counter, hinit] at hloop
    exact hloop

set_option maxRecDepth 100000 in
/-- Witness of C8: from process start (disconnected, counter 1) a read that
issues nothing, a connection, a read whose `recv` fails (id 1), a disconnect,
a refused connection, a write that issues nothing, a new connection, a write
answered by nothing (id 2) and a read answered with a foreign id (id 3); the
next request carries id 4. -/
theorem transaction_id_after_requests_witness :
    Globals.initial.transaction_id = 1 ∧
    issuedRequests Globals.initial
      [Call.read 0 10 recvFailing, Call.connect accepting, Call.read 0 10 recvFailing,
       Call.disconnect, Call.connect refusing, Call.write 5 1 (answering []),
       Call.connect accepting, Call.write 5 1 (answering []),
       Call.read 0 10 (answering (wellFormedResponse 9 scenarioA))] = 3 ∧
    (runCalls Globals.initial
      [Call.read 0 10 recvFailing, Call.connect accepting, Call.read 0 10 recvFailing,
       Call.disconnect, Call.connect refusing, Call.write 5 1 (answering []),
       Call.connect accepting, Call.write 5 1 (answering []),
       Call.read 0 10 (answering (wellFormedResponse 9 scenarioA))]).transaction_id = 4 :=
  ⟨rfl, by decide,
   (transaction_id_after_requests Globals.initial
      [Call.read 0 10 recvFailing, Call.connect accepting, Call.read 0 10 recvFailing,
       Call.disconnect, Call.connect refusing, Call.write 5 1 (answering []),
       Call.connect accepting, Call.write 5 1 (answering []),
       Call.read 0 10 (answering (wellFormedResponse 9 scenarioA))] rfl).1.trans (by decide)⟩

end ModbusClient
